import Mathlib

/-!
# failover-go: the reconciliation pass of `pkg/failover`

A shallow embedding of `pkg/failover/helpers.go` and `pkg/failover/run.go`.

* Go strings are `String`; `strings.Split(s, "=")` and `strings.TrimSuffix` are
  re-implemented on the character list.
* A Go `map[string]string` is `GoMap = Option (List (String × String))`: `none` is the
  nil map (reads behave like the empty map, a write panics), `some l` is an allocated map
  read by first match on the key.
* The Kubernetes API server, the selector parser, the namespace file and the clock are the
  fields of `Cluster σ`, an arbitrary state-passing environment over a state type `σ`.
* `Run` and its helpers are computations `M σ α = σ → Res σ α` which thread the cluster
  state and record every API request, helper entry and log line in a trace.
  `log.Fatalf` (which exits the process) and Go run-time panics end the computation.
-/

namespace Failover

/-! ## Strings -/

/-- Model of `strings.Split(s, "=")` on the character list: the pieces between the `=` signs. -/
def splitEqChars : List Char → List (List Char)
  | [] => [[]]
  | c :: cs =>
    if c = '=' then [] :: splitEqChars cs
    else
      match splitEqChars cs with
      | [] => [[c]]
      | piece :: rest => (c :: piece) :: rest

/-- Model of `strings.Split(s, "=")`. -/
def splitEq (s : String) : List String :=
  (splitEqChars s.data).map String.mk

/-- Model of `strings.HasSuffix(s, suffix)`. -/
def hasSuffix (s suffix : String) : Bool :=
  suffix.data.isSuffixOf s.data

/-- Model of `strings.TrimSuffix(s, suffix)`: `s` without the trailing `suffix`, or `s` itself when
`s` does not end with `suffix`. -/
def trimSuffix (s suffix : String) : String :=
  if hasSuffix s suffix then
    String.mk (s.data.take (s.data.length - suffix.data.length))
  else s

/-! ## Go maps -/

/-- A Go `map[string]string`; `none` is the nil map. -/
abbrev GoMap := Option (List (String × String))

/-- The comma-ok read `v, ok := m[k]`: `some v` when `ok`. Reading the nil map finds nothing. -/
def GoMap.get? (m : GoMap) (k : String) : Option String :=
  match m with
  | none => none
  | some l => (l.find? (fun kv => kv.1 == k)).map (fun kv => kv.2)

/-- The plain read `m[k]`: the zero value `""` when the key is missing. -/
def GoMap.getD (m : GoMap) (k : String) : String :=
  (m.get? k).getD ""

/-- The test `_, ok := m[k]`. -/
def GoMap.contains (m : GoMap) (k : String) : Bool :=
  (m.get? k).isSome

/-- The write `m[k] = v`; `none` is the panic "assignment to entry in nil map". -/
def GoMap.set (m : GoMap) (k v : String) : Option GoMap :=
  match m with
  | none => none
  | some l => some (some ((k, v) :: l.filter (fun kv => !(kv.1 == k))))

/-- The builtin `delete(m, k)`; a no-op on the nil map. -/
def GoMap.delete (m : GoMap) (k : String) : GoMap :=
  match m with
  | none => none
  | some l => some (l.filter (fun kv => !(kv.1 == k)))

/-! ## Kubernetes objects (the fields the package reads or writes) -/

/-- A `v1.NodeCondition` / `v1.PodCondition`: `Type` and `Status`. -/
structure Condition where
  type : String
  status : String
  deriving DecidableEq

/-- A `v1.Node`: `Name`, `Labels`, `Status.Conditions`. -/
structure Node where
  name : String
  labels : GoMap
  conditions : List Condition
  deriving DecidableEq

/-- A `metav1.OwnerReference`: `Kind` and `Name`. -/
structure OwnerRef where
  kind : String
  name : String
  deriving DecidableEq

/-- A `v1.Pod`: `Name`, `Labels`, `DeletionTimestamp`, `OwnerReferences`,
`Spec.NodeSelector`, `Status.Conditions`. -/
structure Pod where
  name : String
  labels : GoMap
  deletionTimestamp : Option String
  ownerReferences : List OwnerRef
  nodeSelector : GoMap
  conditions : List Condition
  deriving DecidableEq

/-- An `appsv1.Deployment`: `Namespace`, `Name`, `Spec.Template.Annotations`. -/
structure Deployment where
  namespace_ : String
  name : String
  templateAnnotations : GoMap
  deriving DecidableEq

/-- The constants `v1.NodeReady` and `v1.PodReady`. -/
def condReady : String := "Ready"

/-- The constant `v1.ConditionTrue`. -/
def conditionTrue : String := "True"

/-- The annotation key written by `restartDeployment`. -/
def restartedAtKey : String := "kubectl.kubernetes.io/restartedAt"

/-! ## Pure helpers of `helpers.go` -/

/-- Model of `strings.Split(failoverLabel, "=")[0]`; `none` is an index-out-of-range panic. -/
def labelKey (failoverLabel : String) : Option String :=
  (splitEq failoverLabel)[0]?

/-- Model of `strings.Split(failoverLabel, "=")[1]`; `none` is an index-out-of-range panic. -/
def labelVal (failoverLabel : String) : Option String :=
  (splitEq failoverLabel)[1]?

/-- Model of `isReadyNode`: some condition has type `Ready` and status `True`. -/
def isReadyNode (node : Node) : Bool :=
  node.conditions.any (fun c => c.type == condReady && c.status == conditionTrue)

/-- Model of `isReadyPod`: some condition passes the test
`pod.DeletionTimestamp == nil && c.Type == PodReady && c.Status == ConditionTrue`. -/
def isReadyPod (pod : Pod) : Bool :=
  pod.conditions.any
    (fun c => pod.deletionTimestamp.isNone && c.type == condReady && c.status == conditionTrue)

/-- Model of `isNodeInPool`: the key `strings.Split(failoverLabel, "=")[0]` is present among the
node's labels. `none` is the index-out-of-range panic of the `[0]`. -/
def isNodeInPool (node : Node) (failoverLabel : String) : Option Bool :=
  match labelKey failoverLabel with
  | none => none
  | some readyKey => some (GoMap.contains node.labels readyKey)

/-- The `range pods.Items` loop of `getSlavePod`: the first pod whose `Spec.NodeSelector`
has the key. -/
def firstWithNodeSelectorKey (nodeSelectorKey : String) (pods : List Pod) : Option Pod :=
  pods.find? (fun pod => GoMap.contains pod.nodeSelector nodeSelectorKey)

/-- The `range pod.OwnerReferences` loop of `getDeploymentByPod`: the first owner reference
of kind `ReplicaSet`. -/
def firstReplicaSetOwner (pod : Pod) : Option OwnerRef :=
  pod.ownerReferences.find? (fun ownerRef => ownerRef.kind == "ReplicaSet")

/-- The name fetched by `getDeploymentByPod` for an owner reference:
`strings.TrimSuffix(ownerRef.Name, fmt.Sprintf("-%s", pod.Labels["pod-template-hash"]))`. -/
def deploymentNameOf (pod : Pod) (ownerRef : OwnerRef) : String :=
  let podTemplateHash := GoMap.getD pod.labels "pod-template-hash"
  trimSuffix ownerRef.name ("-" ++ podTemplateHash)

/-! ## The environment and the effect trace -/

/-- A Go `error`, by its message. -/
abbrev Err := String

/-- The helpers of `helpers.go` that `Run` calls inside its two branches. -/
inductive Fn where
  | removeNodeFromPool
  | addNodeToPool
  | getDeploymentByPod
  | restartDeployment
  deriving DecidableEq

/-- What a pass does that is visible from outside: API requests, log lines, and the entry
into one of the helpers `Fn`. -/
inductive Event where
  | enter (f : Fn)
  | nodesList (labelSelector : String)
  | podsList (ns fieldSelector labelSelector : String)
  | deploymentsGet (ns name : String)
  | nodesUpdate (node : Node)
  | deploymentsUpdate (ns : String) (deployment : Deployment)
  | logPrintf (msg : String)
  | logFatalf (msg : String)
  deriving DecidableEq

/-- A store mutation: `Nodes().Update` or `Deployments(ns).Update`. -/
def Event.isMutation : Event → Bool
  | .nodesUpdate _ => true
  | .deploymentsUpdate _ _ => true
  | _ => false

/-- A workload update: `Deployments(ns).Update`. -/
def Event.isDeploymentUpdate : Event → Bool
  | .deploymentsUpdate _ _ => true
  | _ => false

/-- The collaborators of the package, over an arbitrary cluster state `σ`:
`labels.Parse(sel)` followed by `.String()`, the service-account namespace file, the
clock `metav1.Now().String()`, and the five API calls made through `coreClient` and
`appsClient`. -/
structure Cluster (σ : Type) where
  parseSelector : String → Except Err String
  readNamespaceFile : σ → Except Err String
  now : σ → String × σ
  listNodes : String → σ → Except Err (List Node) × σ
  listPods : String → String → String → σ → Except Err (List Pod) × σ
  getDeployment : String → String → σ → Except Err Deployment × σ
  updateNode : Node → σ → Except Err Unit × σ
  updateDeployment : String → Deployment → σ → Except Err Unit × σ

/-- How a computation ends: it returns, the process exits through `log.Fatalf`, or the Go
run time panics. -/
inductive Outcome (α : Type) where
  | ret (a : α)
  | exit
  | panic
  deriving DecidableEq

/-- The result of a computation: how it ended, the cluster state it left, the events it
emitted. -/
structure Res (σ α : Type) where
  out : Outcome α
  store : σ
  trace : List Event
  deriving DecidableEq

/-- A computation over the cluster state. -/
def M (σ α : Type) : Type := σ → Res σ α

/-- Return a value. -/
def M.pure {σ α : Type} (a : α) : M σ α :=
  fun s => ⟨.ret a, s, []⟩

/-- Sequencing: the second computation runs only if the first returned; the traces are
concatenated. -/
def M.bind {σ α β : Type} (m : M σ α) (f : α → M σ β) : M σ β :=
  fun s =>
    match m s with
    | ⟨.ret a, s1, t1⟩ =>
      match f a s1 with
      | ⟨o, s2, t2⟩ => ⟨o, s2, t1 ++ t2⟩
    | ⟨.exit, s1, t1⟩ => ⟨.exit, s1, t1⟩
    | ⟨.panic, s1, t1⟩ => ⟨.panic, s1, t1⟩

instance instMonadM {σ : Type} : Monad (M σ) where
  pure := M.pure
  bind := M.bind

/-- Record an event. -/
def emit {σ : Type} (e : Event) : M σ Unit :=
  fun s => ⟨.ret (), s, [e]⟩

/-- Run a state-passing call of the cluster. -/
def request {σ α : Type} (f : σ → α × σ) : M σ α :=
  fun s => ⟨.ret (f s).1, (f s).2, []⟩

/-- Read from the cluster state. -/
def readState {σ α : Type} (f : σ → α) : M σ α :=
  fun s => ⟨.ret (f s), s, []⟩

/-- Model of `log.Printf(msg)`. -/
def logPrintf {σ : Type} (msg : String) : M σ Unit :=
  emit (.logPrintf msg)

/-- Model of `log.Fatalf(msg)`: the line is logged and the process exits. -/
def logFatalf {σ α : Type} (msg : String) : M σ α :=
  fun s => ⟨.exit, s, [.logFatalf msg]⟩

/-- A Go run-time panic. -/
def goPanic {σ α : Type} : M σ α :=
  fun s => ⟨.panic, s, []⟩

/-- A value whose computation may panic. -/
def orPanic {σ α : Type} : Option α → M σ α
  | some a => M.pure a
  | none => goPanic

/-! ## `helpers.go`: the calls to the cluster -/

/-- Model of `getNodes`. -/
def getNodes {σ : Type} (K : Cluster σ) (selector : String) : M σ (Except Err (List Node)) :=
  match K.parseSelector selector with
  | .error err => pure (.error ("Failed to parse node labels: " ++ err))
  | .ok nodeLabels => do
    emit (.nodesList nodeLabels)
    match ← request (K.listNodes nodeLabels) with
    | .error err => pure (.error ("Failed to get list of nodes: " ++ err))
    | .ok nodes => pure (.ok nodes)

/-- Model of `getMasterPod`. -/
def getMasterPod {σ : Type} (K : Cluster σ) (node : Node) (selector : String) :
    M σ (Except Err (Option Pod)) :=
  let fieldSelector := "spec.nodeName=" ++ node.name
  match K.parseSelector selector with
  | .error err => pure (.error ("Failed to parse master pod selector: " ++ err))
  | .ok podLabels => do
    match ← readState K.readNamespaceFile with
    | .error err => pure (.error ("Failed to get current namespace: " ++ err))
    | .ok ns =>
      emit (.podsList ns fieldSelector podLabels)
      match ← request (K.listPods ns fieldSelector podLabels) with
      | .error err => pure (.error ("Failed to filter master pods: " ++ err))
      | .ok pods =>
        match pods with
        | [] => pure (.ok none)
        | pod :: _ => pure (.ok (some pod))

/-- Model of `getSlavePod`. -/
def getSlavePod {σ : Type} (K : Cluster σ) (node : Node) (ns selector nodeSelector : String) :
    M σ (Except Err (Option Pod)) :=
  let fieldSelector := "spec.nodeName=" ++ node.name
  match K.parseSelector selector with
  | .error err => pure (.error ("Failed to parse slave pod selector: " ++ err))
  | .ok podLabels => do
    emit (.podsList ns fieldSelector podLabels)
    match ← request (K.listPods ns fieldSelector podLabels) with
    | .error err => pure (.error ("Failed to list slave pods: " ++ err))
    | .ok pods =>
      if pods.length == 0 then pure (.ok none)
      else do
        let nodeSelectorKey ← orPanic (labelKey nodeSelector)
        pure (.ok (firstWithNodeSelectorKey nodeSelectorKey pods))

/-- Model of `getDeploymentByPod`. -/
def getDeploymentByPod {σ : Type} (K : Cluster σ) (pod : Pod) (ns : String) :
    M σ (Except Err (Option Deployment)) := do
  emit (.enter .getDeploymentByPod)
  match firstReplicaSetOwner pod with
  | none => pure (.ok none)
  | some ownerRef =>
    let deploymentName := deploymentNameOf pod ownerRef
    emit (.deploymentsGet ns deploymentName)
    match ← request (K.getDeployment ns deploymentName) with
    | .error err => pure (.error ("Failed to get pod's deployment: " ++ err))
    | .ok deployment => pure (.ok (some deployment))

/-- The deployment after the first three statements of `restartDeployment`:
`annotations := deployment.Spec.Template.Annotations`, then
`if annotations == nil { annotations = make(map[string]string) }`, then
`annotations[restartedAt] = stamp`. The local `annotations` aliases the template's map when
that map is allocated, so the write lands in the deployment; when the template's map is nil
the local is rebound to a fresh map, the write lands there, and the deployment keeps its
nil map. -/
def annotateRestart (deployment : Deployment) (stamp : String) : Deployment :=
  match deployment.templateAnnotations with
  | none => deployment
  | some l =>
    { deployment with
      templateAnnotations := some ((restartedAtKey, stamp) :: l.filter (fun kv => !(kv.1 == restartedAtKey))) }

/-- Model of `restartDeployment`. -/
def restartDeployment {σ : Type} (K : Cluster σ) (deployment : Deployment) (ns : String) :
    M σ (Option Err) := do
  emit (.enter .restartDeployment)
  let stamp ← request K.now
  let deployment := annotateRestart deployment stamp
  emit (.deploymentsUpdate ns deployment)
  match ← request (K.updateDeployment ns deployment) with
  | .error err => pure (some ("Failed to restart deployment: " ++ err))
  | .ok _ => pure none

/-- The node after `node.Labels[key] = val`; `none` is the panic of a write to a nil map. -/
def setLabel (node : Node) (key val : String) : Option Node :=
  match GoMap.set node.labels key val with
  | none => none
  | some labels => some { node with labels := labels }

/-- The node after `if _, ok := node.Labels[key]; ok { delete(node.Labels, key) }`. -/
def dropLabel (node : Node) (key : String) : Node :=
  if GoMap.contains node.labels key then { node with labels := GoMap.delete node.labels key }
  else node

/-- Model of `addNodeToPool`; returns the node as mutated together with the error. -/
def addNodeToPool {σ : Type} (K : Cluster σ) (node : Node) (failoverLabel : String) :
    M σ (Node × Option Err) := do
  emit (.enter .addNodeToPool)
  let key ← orPanic (labelKey failoverLabel)
  let val ← orPanic (labelVal failoverLabel)
  let node ← orPanic (setLabel node key val)
  emit (.nodesUpdate node)
  match ← request (K.updateNode node) with
  | .error err => pure (node, some ("Error updating node: " ++ err))
  | .ok _ => pure (node, none)

/-- Model of `removeNodeFromPool`; returns the node as mutated together with the error. -/
def removeNodeFromPool {σ : Type} (K : Cluster σ) (node : Node) (failoverLabel : String) :
    M σ (Node × Option Err) := do
  emit (.enter .removeNodeFromPool)
  let key ← orPanic (labelKey failoverLabel)
  let node := dropLabel node key
  emit (.nodesUpdate node)
  match ← request (K.updateNode node) with
  | .error err => pure (node, some ("Error updating node: " ++ err))
  | .ok _ => pure (node, none)

/-- Model of `strconv.FormatBool`. -/
def formatBool (b : Bool) : String :=
  if b then "true" else "false"

/-- Model of `logStr` (its `node` argument is never nil in `Run`). -/
def logStr (node : Node) (masterPod slavePod : Option Pod) : String :=
  let masterPodName := match masterPod with
    | some p => p.name
    | none => ""
  let ready := match masterPod with
    | some p => isReadyPod p && isReadyNode node
    | none => false
  let slavePodName := match slavePod with
    | some p => p.name
    | none => ""
  "node=" ++ node.name ++ " masterPod=" ++ masterPodName ++ " ready=" ++ formatBool ready
    ++ " slavePod=" ++ slavePodName

/-! ## `run.go` -/

/-- The flags of `config.Config` that `Run` reads. -/
structure Config where
  slavePodSelector : String
  masterPodSelector : String
  nodeSelector : String
  failoverPoolLabel : String
  slavePodNamespace : String
  logEveryRun : Bool
  deriving DecidableEq

/-- The guard of the first branch of `Run`:
`(masterPod == nil || !isReadyPod(masterPod) || !isReadyNode(&node)) && nodeInPool`. -/
def evictionCond (node : Node) (masterPod : Option Pod) (nodeInPool : Bool) : Bool :=
  (match masterPod with
    | none => true
    | some p => !isReadyPod p || !isReadyNode node) && nodeInPool

/-- The guard of the second branch of `Run`:
`(masterPod != nil && isReadyPod(masterPod) && isReadyNode(&node)) && !nodeInPool`. -/
def admissionCond (node : Node) (masterPod : Option Pod) (nodeInPool : Bool) : Bool :=
  (match masterPod with
    | none => false
    | some p => isReadyPod p && isReadyNode node) && !nodeInPool

/-- The block `if slavePod != nil { ... }` of the first branch of `Run`: fetch the slave
pod's deployment and restart it. A failed fetch and a failed restart are logged with
`log.Printf`. -/
def restartSlave {σ : Type} (K : Cluster σ) (config : Config) (slavePod : Option Pod) :
    M σ Unit :=
  match slavePod with
  | none => pure ()
  | some slavePod => do
    let deployment ←
      match ← getDeploymentByPod K slavePod config.slavePodNamespace with
      | .error err => do
        logPrintf ("Failed to get deployment of pod " ++ slavePod.name ++ ": " ++ err)
        pure none
      | .ok deployment => pure deployment
    match deployment with
    | none => pure ()
    | some deployment => do
      logPrintf ("Restarting deployment " ++ deployment.namespace_ ++ "/" ++ deployment.name)
      match ← restartDeployment K deployment config.slavePodNamespace with
      | some err =>
        logPrintf ("Failed to restart deployment " ++ deployment.namespace_ ++ "/"
          ++ deployment.name ++ ": " ++ err)
      | none => pure ()

/-- The first branch of `Run`, taken when `evictionCond` holds: leave the pool, then restart
the slave pod's deployment. Returns the node as mutated. -/
def leavePool {σ : Type} (K : Cluster σ) (config : Config) (node : Node) (slavePod : Option Pod) :
    M σ Node := do
  let (node, err) ← removeNodeFromPool K node config.failoverPoolLabel
  match err with
  | some err =>
    logPrintf ("Failed to remove node " ++ node.name ++ " from failover pool: " ++ err)
  | none => logPrintf ("Removed node " ++ node.name ++ " from failover pool")
  restartSlave K config slavePod
  pure node

/-- The second branch of `Run`, taken when `admissionCond` holds: join the pool. Returns the
node as mutated. -/
def joinPool {σ : Type} (K : Cluster σ) (config : Config) (node : Node) : M σ Node := do
  let (node, err) ← addNodeToPool K node config.failoverPoolLabel
  match err with
  | some err =>
    logPrintf ("Failed to add node " ++ node.name ++ " to failover pool: " ++ err)
    pure node
  | none =>
    logPrintf ("Added node " ++ node.name ++ " to failover pool")
    pure node

/-- The part of the loop body of `Run` after the two pod queries: the membership test, the
two branches, the optional log line. Returns the loop variable `node` as the body leaves
it. -/
def reconcileNode {σ : Type} (K : Cluster σ) (config : Config) (node : Node)
    (masterPod slavePod : Option Pod) : M σ Node := do
  let nodeInPool ← orPanic (isNodeInPool node config.failoverPoolLabel)
  let node ←
    if evictionCond node masterPod nodeInPool then leavePool K config node slavePod
    else pure node
  let node ←
    if admissionCond node masterPod nodeInPool then joinPool K config node
    else pure node
  if config.logEveryRun then
    logPrintf (logStr node masterPod slavePod)
  pure node

/-- The loop body of `Run` for one node. -/
def runNode {σ : Type} (K : Cluster σ) (config : Config) (node : Node) : M σ Node := do
  match ← getMasterPod K node config.masterPodSelector with
  | .error err => logFatalf ("Failed to get master pod: " ++ err)
  | .ok masterPod =>
    match ← getSlavePod K node config.slavePodNamespace config.slavePodSelector
        config.failoverPoolLabel with
    | .error err => logFatalf ("Failed to get slave pods: " ++ err)
    | .ok slavePod => reconcileNode K config node masterPod slavePod

/-- The loop `for _, node := range nodes.Items` of `Run`. -/
def runNodes {σ : Type} (K : Cluster σ) (config : Config) : List Node → M σ Unit
  | [] => pure ()
  | node :: rest => do
    let _ ← runNode K config node
    runNodes K config rest

/-- Model of `Run`: one pass. -/
def Run {σ : Type} (K : Cluster σ) (config : Config) : M σ Unit := do
  match ← getNodes K config.nodeSelector with
  | .error err => logFatalf ("Failed to get nodes: " ++ err)
  | .ok nodes =>
    if nodes.length == 0 then
      logFatalf ("No nodes found with selector " ++ config.nodeSelector)
    else runNodes K config nodes

/-! ## Observations on a trace -/

/-- How many times the helper `f` was entered. -/
def calls (f : Fn) (t : List Event) : Nat :=
  t.count (.enter f)

/-- The nodes submitted with `Nodes().Update`, in order. -/
def nodeUpdates (t : List Event) : List Node :=
  t.filterMap (fun e => match e with
    | .nodesUpdate node => some node
    | _ => none)

/-- The deployments submitted with `Deployments(ns).Update`, in order. -/
def deploymentUpdates (t : List Event) : List Deployment :=
  t.filterMap (fun e => match e with
    | .deploymentsUpdate _ d => some d
    | _ => none)

/-- The store mutations of a trace. -/
def mutations (t : List Event) : List Event :=
  t.filter Event.isMutation

/-! ## Concrete clusters for the worked examples -/

/-- The answers of a scripted cluster: it has no state, parses every selector to itself,
lives in namespace `default`, and its clock always reads `stamp`. -/
structure Script where
  nodes : Except Err (List Node)
  masterPods : Except Err (List Pod)
  slavePods : Except Err (List Pod)
  deployment : String → Except Err Deployment
  nodeUpdate : Except Err Unit
  deploymentUpdate : Except Err Unit
  stamp : String

/-- The cluster that answers from a script: pods listed in namespace `default` are the
master pods, pods listed elsewhere are the slave pods. -/
def scripted (sc : Script) : Cluster Unit where
  parseSelector := fun sel => .ok sel
  readNamespaceFile := fun _ => .ok "default"
  now := fun s => (sc.stamp, s)
  listNodes := fun _ s => (sc.nodes, s)
  listPods := fun ns _ _ s => (if ns == "default" then sc.masterPods else sc.slavePods, s)
  getDeployment := fun _ name s => (sc.deployment name, s)
  updateNode := fun _ s => (sc.nodeUpdate, s)
  updateDeployment := fun _ _ s => (sc.deploymentUpdate, s)

/-- The configuration of the examples: pool label `pool=true`, slave pods in namespace
`apps`. -/
def demoConfig : Config :=
  { slavePodSelector := "role=slave"
    masterPodSelector := "role=master"
    nodeSelector := ""
    failoverPoolLabel := "pool=true"
    slavePodNamespace := "apps"
    logEveryRun := false }

/-- A ready master pod. -/
def demoMaster : Pod :=
  { name := "master-0"
    labels := some [("role", "master")]
    deletionTimestamp := none
    ownerReferences := []
    nodeSelector := none
    conditions := [⟨"Ready", "True"⟩] }

/-- A slave pod of ReplicaSet `web-5d4f8`, bound to the pool by its node selector. -/
def demoSlave : Pod :=
  { name := "web-5d4f8-x2x"
    labels := some [("role", "slave"), ("pod-template-hash", "5d4f8")]
    deletionTimestamp := none
    ownerReferences := [⟨"ReplicaSet", "web-5d4f8"⟩]
    nodeSelector := some [("pool", "true")]
    conditions := [⟨"Ready", "True"⟩] }

/-- A slave pod whose ReplicaSet name does not end with its `pod-template-hash`. -/
def oddSlave : Pod :=
  { demoSlave with labels := some [("role", "slave"), ("pod-template-hash", "77777")] }

/-- A slave pod that is not bound to the pool. -/
def unboundSlave : Pod :=
  { demoSlave with name := "web-5d4f8-a1a", nodeSelector := none }

/-- A deployment whose pod template has no annotations: the map is nil. -/
def bareDeployment (name : String) : Deployment :=
  { namespace_ := "apps", name := name, templateAnnotations := none }

/-- A ready node in the pool. -/
def pooledNode (name : String) : Node :=
  { name := name, labels := some [("pool", "true")], conditions := [⟨"Ready", "True"⟩] }

/-- A ready node that carries no label at all: the map is nil. -/
def bareNode (name : String) : Node :=
  { name := name, labels := none, conditions := [⟨"Ready", "True"⟩] }

/-- A cluster where every request succeeds: two pooled nodes, no master pod, one bound
slave pod, every deployment exists and has no template annotations. -/
def calmScript : Script :=
  { nodes := .ok [pooledNode "n1", pooledNode "n2"]
    masterPods := .ok []
    slavePods := .ok [unboundSlave, demoSlave]
    deployment := fun name => .ok (bareDeployment name)
    nodeUpdate := .ok ()
    deploymentUpdate := .ok ()
    stamp := "2024-05-01 10:00:00 +0000 UTC" }

/-- The calm cluster, except that fetching a deployment fails. -/
def noDeploymentScript : Script :=
  { calmScript with deployment := fun _ => .error "deployments.apps not found" }

/-- The calm cluster, except that listing pods in the engine's own namespace fails. -/
def noMasterListScript : Script :=
  { calmScript with masterPods := .error "the server is currently unable to handle the request" }

/-! # Theorems -/

/-! ## Strings: lemmas -/

theorem splitEqChars_ne_nil (l : List Char) : splitEqChars l ≠ [] := by
  cases l with
  | nil => simp [splitEqChars]
  | cons c cs =>
    simp only [splitEqChars]
    split
    · simp
    · split <;> simp

theorem splitEqChars_cons_ne (c : Char) (cs : List Char) (hc : c ≠ '=') :
    ∃ piece rest, splitEqChars cs = piece :: rest ∧
      splitEqChars (c :: cs) = (c :: piece) :: rest := by
  cases h : splitEqChars cs with
  | nil => exact absurd h (splitEqChars_ne_nil cs)
  | cons piece rest => exact ⟨piece, rest, rfl, by simp [splitEqChars, hc, h]⟩

theorem splitEqChars_no_eq (l : List Char) (h : '=' ∉ l) : splitEqChars l = [l] := by
  induction l with
  | nil => rfl
  | cons c cs ih =>
    have hc : c ≠ '=' := fun e => h (by simp [e])
    have hcs : '=' ∉ cs := fun e => h (by simp [e])
    simp [splitEqChars, hc, ih hcs]

theorem splitEqChars_append_eq (k v : List Char) (h : '=' ∉ k) :
    splitEqChars (k ++ '=' :: v) = k :: splitEqChars v := by
  induction k with
  | nil => simp [splitEqChars]
  | cons c cs ih =>
    have hc : c ≠ '=' := fun e => h (by simp [e])
    have hcs : '=' ∉ cs := fun e => h (by simp [e])
    simp [splitEqChars, hc, ih hcs]

theorem splitEqChars_length_of_mem (l : List Char) (h : '=' ∈ l) :
    2 ≤ (splitEqChars l).length := by
  induction l with
  | nil => simp at h
  | cons c cs ih =>
    by_cases hc : c = '='
    · have := List.length_pos.mpr (splitEqChars_ne_nil cs)
      simp only [splitEqChars, hc, if_true, List.length_cons]
      omega
    · have hcs : '=' ∈ cs := by
        rcases List.mem_cons.mp h with e | e
        · exact absurd e.symm hc
        · exact e
      obtain ⟨piece, rest, h1, h2⟩ := splitEqChars_cons_ne c cs hc
      have := ih hcs
      rw [h2]
      rw [h1] at this
      simpa using this

theorem labelKey_isSome (label : String) : (labelKey label).isSome = true := by
  unfold labelKey splitEq
  cases h : splitEqChars label.data with
  | nil => exact absurd h (splitEqChars_ne_nil _)
  | cons a as => simp

theorem labelVal_isSome (label : String) (h : '=' ∈ label.data) :
    (labelVal label).isSome = true := by
  unfold labelVal splitEq
  have := splitEqChars_length_of_mem label.data h
  match hs : splitEqChars label.data, this with
  | _ :: _ :: _, _ => simp

theorem labelKey_kv (k v : String) (hk : '=' ∉ k.data) :
    labelKey (k ++ "=" ++ v) = some k := by
  have hd : (k ++ "=" ++ v).data = k.data ++ '=' :: v.data := by
    simp [String.data_append]
  unfold labelKey splitEq
  rw [hd, splitEqChars_append_eq _ _ hk]
  simp

theorem labelVal_kv (k v : String) (hk : '=' ∉ k.data) (hv : '=' ∉ v.data) :
    labelVal (k ++ "=" ++ v) = some v := by
  have hd : (k ++ "=" ++ v).data = k.data ++ '=' :: v.data := by
    simp [String.data_append]
  unfold labelVal splitEq
  rw [hd, splitEqChars_append_eq _ _ hk, splitEqChars_no_eq _ hv]
  simp

theorem trimSuffix_append (p suffix : String) : trimSuffix (p ++ suffix) suffix = p := by
  unfold trimSuffix hasSuffix
  have h1 : suffix.data.isSuffixOf (p ++ suffix).data = true := by
    simp [String.data_append]
  rw [if_pos h1]
  simp [String.data_append]

theorem trimSuffix_of_not_hasSuffix (s suffix : String) (h : hasSuffix s suffix = false) :
    trimSuffix s suffix = s := by
  simp [trimSuffix, h]

theorem hasSuffix_iff (s suffix : String) :
    hasSuffix s suffix = true ↔ ∃ p : String, s = p ++ suffix := by
  unfold hasSuffix
  rw [List.isSuffixOf_iff_suffix]
  constructor
  · rintro ⟨t, ht⟩
    exact ⟨String.mk t, by apply String.ext; simp [String.data_append, ht]⟩
  · rintro ⟨p, rfl⟩
    exact ⟨p.data, by simp [String.data_append]⟩

/-! ## Go maps: lemmas -/

theorem GoMap.find_filter_ne (l : List (String × String)) (k k' : String) (h : k' ≠ k) :
    (l.filter (fun kv => !(kv.1 == k))).find? (fun kv => kv.1 == k') =
      l.find? (fun kv => kv.1 == k') := by
  induction l with
  | nil => rfl
  | cons a as ih =>
    obtain ⟨a1, a2⟩ := a
    by_cases h1 : a1 = k
    · have h2 : ¬ k = k' := fun e => h e.symm
      subst h1
      simp [List.filter_cons, List.find?_cons, h2, ih]
    · by_cases h2 : a1 = k'
      · subst h2
        simp [List.filter_cons, List.find?_cons, h1]
      · simp [List.filter_cons, List.find?_cons, h1, h2, ih]

theorem GoMap.find_filter_self (l : List (String × String)) (k : String) :
    (l.filter (fun kv => !(kv.1 == k))).find? (fun kv => kv.1 == k) = none := by
  simp [List.find?_eq_none]

theorem GoMap.contains_delete (m : GoMap) (k : String) :
    GoMap.contains (GoMap.delete m k) k = false := by
  cases m with
  | none => rfl
  | some l => simp [GoMap.contains, GoMap.delete, GoMap.get?, GoMap.find_filter_self]

theorem GoMap.get?_delete_ne (m : GoMap) (k k' : String) (h : k' ≠ k) :
    GoMap.get? (GoMap.delete m k) k' = GoMap.get? m k' := by
  cases m with
  | none => rfl
  | some l => simp [GoMap.delete, GoMap.get?, GoMap.find_filter_ne l k k' h]

theorem GoMap.get?_set (m m' : GoMap) (k v : String) (h : GoMap.set m k v = some m') :
    GoMap.get? m' k = some v := by
  cases m with
  | none => simp [GoMap.set] at h
  | some l =>
    simp only [GoMap.set, Option.some.injEq] at h
    subst h
    simp [GoMap.get?]

theorem GoMap.get?_set_ne (m m' : GoMap) (k v k' : String) (h : GoMap.set m k v = some m')
    (hne : k' ≠ k) : GoMap.get? m' k' = GoMap.get? m k' := by
  cases m with
  | none => simp [GoMap.set] at h
  | some l =>
    simp only [GoMap.set, Option.some.injEq] at h
    subst h
    have h2 : ¬ k = k' := fun e => hne e.symm
    simp [GoMap.get?, List.find?_cons, h2, GoMap.find_filter_ne l k k' hne]

theorem GoMap.set_isSome_iff (m : GoMap) (k v : String) :
    (GoMap.set m k v).isSome = true ↔ m ≠ none := by
  cases m <;> simp [GoMap.set]

theorem GoMap.contains_set (m m' : GoMap) (k v : String) (h : GoMap.set m k v = some m') :
    GoMap.contains m' k = true := by
  simp [GoMap.contains, GoMap.get?_set m m' k v h]

/-! ## The helpers, run on a cluster -/

@[simp] theorem run_bind {σ α β : Type} (m : M σ α) (f : α → M σ β) (s : σ) :
    (m >>= f) s = M.bind m f s := rfl

@[simp] theorem run_pure {σ α : Type} (a : α) (s : σ) :
    (pure a : M σ α) s = ⟨.ret a, s, []⟩ := rfl

@[simp] theorem run_mpure {σ α : Type} (a : α) (s : σ) :
    M.pure a s = ⟨.ret a, s, []⟩ := rfl

theorem removeNodeFromPool_eq {σ : Type} (K : Cluster σ) (node : Node) (label key : String)
    (s : σ) (hk : labelKey label = some key) :
    removeNodeFromPool K node label s =
      ⟨.ret (dropLabel node key,
          match (K.updateNode (dropLabel node key) s).1 with
          | .error err => some ("Error updating node: " ++ err)
          | .ok _ => none),
        (K.updateNode (dropLabel node key) s).2,
        [.enter .removeNodeFromPool, .nodesUpdate (dropLabel node key)]⟩ := by
  simp only [removeNodeFromPool, hk, orPanic, run_bind, M.bind, emit, request, M.pure]
  cases (K.updateNode (dropLabel node key) s).1 <;> simp

theorem addNodeToPool_eq {σ : Type} (K : Cluster σ) (node node' : Node) (label key val : String)
    (s : σ) (hk : labelKey label = some key) (hv : labelVal label = some val)
    (hn : setLabel node key val = some node') :
    addNodeToPool K node label s =
      ⟨.ret (node',
          match (K.updateNode node' s).1 with
          | .error err => some ("Error updating node: " ++ err)
          | .ok _ => none),
        (K.updateNode node' s).2,
        [.enter .addNodeToPool, .nodesUpdate node']⟩ := by
  simp only [addNodeToPool, hk, hv, hn, orPanic, run_bind, M.bind, emit, request, M.pure]
  cases (K.updateNode node' s).1 <;> simp

theorem addNodeToPool_panic {σ : Type} (K : Cluster σ) (node : Node) (label : String) (s : σ)
    (h : labelVal label = none ∨ node.labels = none) :
    addNodeToPool K node label s = ⟨.panic, s, [.enter .addNodeToPool]⟩ := by
  have hk := labelKey_isSome label
  obtain ⟨key, hk⟩ := Option.isSome_iff_exists.mp hk
  rcases h with h | h
  · simp [addNodeToPool, hk, h, orPanic, M.bind, emit, goPanic, M.pure]
  · cases hv : labelVal label with
    | none => simp [addNodeToPool, hk, hv, orPanic, M.bind, emit, goPanic, M.pure]
    | some val =>
      simp [addNodeToPool, hk, hv, h, setLabel, GoMap.set, orPanic, M.bind, emit, goPanic, M.pure]

theorem restartDeployment_eq {σ : Type} (K : Cluster σ) (d : Deployment) (ns : String) (s : σ) :
    restartDeployment K d ns s =
      ⟨.ret (match (K.updateDeployment ns (annotateRestart d (K.now s).1) (K.now s).2).1 with
          | .error err => some ("Failed to restart deployment: " ++ err)
          | .ok _ => none),
        (K.updateDeployment ns (annotateRestart d (K.now s).1) (K.now s).2).2,
        [.enter .restartDeployment, .deploymentsUpdate ns (annotateRestart d (K.now s).1)]⟩ := by
  simp only [restartDeployment, run_bind, M.bind, emit, request, M.pure]
  cases (K.updateDeployment ns (annotateRestart d (K.now s).1) (K.now s).2).1 <;> simp

theorem getDeploymentByPod_none {σ : Type} (K : Cluster σ) (pod : Pod) (ns : String) (s : σ)
    (h : firstReplicaSetOwner pod = none) :
    getDeploymentByPod K pod ns s = ⟨.ret (.ok none), s, [.enter .getDeploymentByPod]⟩ := by
  simp [getDeploymentByPod, h, M.bind, emit, M.pure]

theorem getDeploymentByPod_some {σ : Type} (K : Cluster σ) (pod : Pod) (ns : String) (s : σ)
    (o : OwnerRef) (h : firstReplicaSetOwner pod = some o) :
    getDeploymentByPod K pod ns s =
      ⟨.ret (match (K.getDeployment ns (deploymentNameOf pod o) s).1 with
          | .error err => .error ("Failed to get pod's deployment: " ++ err)
          | .ok d => .ok (some d)),
        (K.getDeployment ns (deploymentNameOf pod o) s).2,
        [.enter .getDeploymentByPod, .deploymentsGet ns (deploymentNameOf pod o)]⟩ := by
  simp only [getDeploymentByPod, h, run_bind, M.bind, emit, request, M.pure]
  cases (K.getDeployment ns (deploymentNameOf pod o) s).1 <;> simp

theorem logPrintf_eq {σ : Type} (msg : String) (s : σ) :
    (logPrintf msg : M σ Unit) s = ⟨.ret (), s, [.logPrintf msg]⟩ := rfl

theorem restartSlave_none {σ : Type} (K : Cluster σ) (config : Config) (s : σ) :
    restartSlave K config none s = ⟨.ret (), s, []⟩ := rfl

theorem restartSlave_unowned {σ : Type} (K : Cluster σ) (config : Config) (pod : Pod) (s : σ)
    (h : firstReplicaSetOwner pod = none) :
    restartSlave K config (some pod) s = ⟨.ret (), s, [.enter .getDeploymentByPod]⟩ := by
  simp [restartSlave, M.bind, getDeploymentByPod_none K pod _ s h]

theorem restartSlave_get_failed {σ : Type} (K : Cluster σ) (config : Config) (pod : Pod) (s : σ)
    (o : OwnerRef) (err : Err) (h : firstReplicaSetOwner pod = some o)
    (hg : (K.getDeployment config.slavePodNamespace (deploymentNameOf pod o) s).1 = .error err) :
    restartSlave K config (some pod) s =
      ⟨.ret (), (K.getDeployment config.slavePodNamespace (deploymentNameOf pod o) s).2,
        [.enter .getDeploymentByPod,
         .deploymentsGet config.slavePodNamespace (deploymentNameOf pod o),
         .logPrintf ("Failed to get deployment of pod " ++ pod.name ++ ": "
            ++ ("Failed to get pod's deployment: " ++ err))]⟩ := by
  simp [restartSlave, M.bind, getDeploymentByPod_some K pod _ s o h, hg, logPrintf_eq]

theorem restartSlave_restart {σ : Type} (K : Cluster σ) (config : Config) (pod : Pod) (s : σ)
    (o : OwnerRef) (d : Deployment) (h : firstReplicaSetOwner pod = some o)
    (hg : (K.getDeployment config.slavePodNamespace (deploymentNameOf pod o) s).1 = .ok d) :
    restartSlave K config (some pod) s =
      ⟨.ret (),
        (K.updateDeployment config.slavePodNamespace
          (annotateRestart d
            (K.now (K.getDeployment config.slavePodNamespace (deploymentNameOf pod o) s).2).1)
          (K.now (K.getDeployment config.slavePodNamespace (deploymentNameOf pod o) s).2).2).2,
        [.enter .getDeploymentByPod,
         .deploymentsGet config.slavePodNamespace (deploymentNameOf pod o),
         .logPrintf ("Restarting deployment " ++ d.namespace_ ++ "/" ++ d.name),
         .enter .restartDeployment,
         .deploymentsUpdate config.slavePodNamespace
           (annotateRestart d
             (K.now (K.getDeployment config.slavePodNamespace (deploymentNameOf pod o) s).2).1)]
         ++ (match (K.updateDeployment config.slavePodNamespace
            (annotateRestart d
              (K.now (K.getDeployment config.slavePodNamespace (deploymentNameOf pod o) s).2).1)
            (K.now (K.getDeployment config.slavePodNamespace (deploymentNameOf pod o) s).2).2).1
            with
          | .error err =>
            [.logPrintf ("Failed to restart deployment " ++ d.namespace_ ++ "/" ++ d.name
              ++ ": " ++ ("Failed to restart deployment: " ++ err))]
          | .ok _ => [])⟩ := by
  simp only [restartSlave, run_bind, M.bind, getDeploymentByPod_some K pod _ s o h, hg,
    logPrintf_eq, restartDeployment_eq, run_pure]
  cases (K.updateDeployment config.slavePodNamespace
      (annotateRestart d
        (K.now (K.getDeployment config.slavePodNamespace (deploymentNameOf pod o) s).2).1)
      (K.now (K.getDeployment config.slavePodNamespace (deploymentNameOf pod o) s).2).2).1 <;>
    simp [logPrintf_eq]

theorem restartSlave_obs {σ : Type} (K : Cluster σ) (config : Config) (slavePod : Option Pod)
    (s : σ) :
    ∃ s1 t, restartSlave K config slavePod s = ⟨.ret (), s1, t⟩ ∧
      calls .removeNodeFromPool t = 0 ∧ calls .addNodeToPool t = 0 ∧ nodeUpdates t = [] ∧
      (deploymentUpdates t).length ≤ 1 := by
  cases slavePod with
  | none => exact ⟨s, [], rfl, by simp [calls, nodeUpdates, deploymentUpdates]⟩
  | some pod =>
    cases h : firstReplicaSetOwner pod with
    | none =>
      exact ⟨_, _, restartSlave_unowned K config pod s h,
        by simp [calls, nodeUpdates, deploymentUpdates]⟩
    | some o =>
      cases hg : (K.getDeployment config.slavePodNamespace (deploymentNameOf pod o) s).1 with
      | error err =>
        exact ⟨_, _, restartSlave_get_failed K config pod s o err h hg,
          by simp [calls, nodeUpdates, deploymentUpdates]⟩
      | ok d =>
        refine ⟨_, _, restartSlave_restart K config pod s o d h hg, ?_⟩
        cases (K.updateDeployment config.slavePodNamespace
            (annotateRestart d
              (K.now (K.getDeployment config.slavePodNamespace (deploymentNameOf pod o) s).2).1)
            (K.now (K.getDeployment config.slavePodNamespace (deploymentNameOf pod o) s).2).2).1 <;>
          simp [calls, nodeUpdates, deploymentUpdates]

theorem leavePool_eq {σ : Type} (K : Cluster σ) (config : Config) (node : Node)
    (slavePod : Option Pod) (s : σ) (key : String)
    (hk : labelKey config.failoverPoolLabel = some key) :
    leavePool K config node slavePod s =
      ⟨.ret (dropLabel node key),
        (restartSlave K config slavePod (K.updateNode (dropLabel node key) s).2).store,
        [.enter .removeNodeFromPool, .nodesUpdate (dropLabel node key),
          .logPrintf (match (K.updateNode (dropLabel node key) s).1 with
            | .error err => "Failed to remove node " ++ node.name ++ " from failover pool: "
                ++ ("Error updating node: " ++ err)
            | .ok _ => "Removed node " ++ node.name ++ " from failover pool")]
          ++ (restartSlave K config slavePod (K.updateNode (dropLabel node key) s).2).trace⟩ := by
  obtain ⟨s1, t, he, -⟩ :=
    restartSlave_obs K config slavePod (K.updateNode (dropLabel node key) s).2
  have hname : (dropLabel node key).name = node.name := by
    unfold dropLabel
    split <;> rfl
  simp only [leavePool, run_bind, M.bind, removeNodeFromPool_eq K node _ key s hk]
  cases (K.updateNode (dropLabel node key) s).1 <;>
    simp [M.bind, logPrintf_eq, he, hname]

theorem leavePool_obs {σ : Type} (K : Cluster σ) (config : Config) (node : Node)
    (slavePod : Option Pod) (s : σ) (key : String)
    (hk : labelKey config.failoverPoolLabel = some key) :
    ∃ s1 t, leavePool K config node slavePod s = ⟨.ret (dropLabel node key), s1, t⟩ ∧
      calls .removeNodeFromPool t = 1 ∧ calls .addNodeToPool t = 0 ∧
      nodeUpdates t = [dropLabel node key] ∧ (deploymentUpdates t).length ≤ 1 := by
  have he := leavePool_eq K config node slavePod s key hk
  obtain ⟨s1, t, hr, h1, h2, h3, h4⟩ :=
    restartSlave_obs K config slavePod (K.updateNode (dropLabel node key) s).2
  refine ⟨_, _, he, ?_⟩
  rw [hr]
  simp only [calls, nodeUpdates, deploymentUpdates] at h1 h2 h3 h4 ⊢
  simp [List.count_cons, h1, h2, h3, List.filterMap_cons]
  exact h4

theorem joinPool_eq {σ : Type} (K : Cluster σ) (config : Config) (node node' : Node)
    (key val : String) (s : σ) (hk : labelKey config.failoverPoolLabel = some key)
    (hv : labelVal config.failoverPoolLabel = some val) (hn : setLabel node key val = some node') :
    joinPool K config node s =
      ⟨.ret node', (K.updateNode node' s).2,
        [.enter .addNodeToPool, .nodesUpdate node',
          .logPrintf (match (K.updateNode node' s).1 with
            | .error err => "Failed to add node " ++ node.name ++ " to failover pool: "
                ++ ("Error updating node: " ++ err)
            | .ok _ => "Added node " ++ node.name ++ " to failover pool")]⟩ := by
  have hname : node'.name = node.name := by
    unfold setLabel at hn
    split at hn
    · exact absurd hn (by simp)
    · simp only [Option.some.injEq] at hn
      rw [← hn]
  simp only [joinPool, run_bind, M.bind, addNodeToPool_eq K node node' _ key val s hk hv hn]
  cases (K.updateNode node' s).1 <;>
    simp [M.bind, logPrintf_eq, hname]

theorem joinPool_panic {σ : Type} (K : Cluster σ) (config : Config) (node : Node) (s : σ)
    (h : labelVal config.failoverPoolLabel = none ∨ node.labels = none) :
    joinPool K config node s = ⟨.panic, s, [.enter .addNodeToPool]⟩ := by
  simp [joinPool, M.bind, addNodeToPool_panic K node _ s h]

/-! ## The loop body on a snapshot -/

theorem isNodeInPool_eq (node : Node) (label key : String) (hk : labelKey label = some key) :
    isNodeInPool node label = some (GoMap.contains node.labels key) := by
  simp [isNodeInPool, hk]

theorem evictionCond_false_right (node : Node) (masterPod : Option Pod) :
    evictionCond node masterPod false = false := by
  simp [evictionCond]

theorem admissionCond_true_right (node : Node) (masterPod : Option Pod) :
    admissionCond node masterPod true = false := by
  simp [admissionCond]

theorem reconcileNode_leave {σ : Type} (K : Cluster σ) (config : Config) (node : Node)
    (masterPod slavePod : Option Pod) (s : σ) (key : String)
    (hk : labelKey config.failoverPoolLabel = some key)
    (hin : GoMap.contains node.labels key = true)
    (hc : evictionCond node masterPod true = true) :
    reconcileNode K config node masterPod slavePod s =
      ⟨.ret (dropLabel node key), (leavePool K config node slavePod s).store,
        (leavePool K config node slavePod s).trace ++
          (if config.logEveryRun then [.logPrintf (logStr (dropLabel node key) masterPod slavePod)]
           else [])⟩ := by
  have he := leavePool_eq K config node slavePod s key hk
  simp only [reconcileNode, isNodeInPool_eq node _ key hk, hin, hc, orPanic, run_bind, M.bind,
    run_mpure, if_true, admissionCond_true_right, he]
  cases config.logEveryRun <;> simp [M.bind, logPrintf_eq, hc, he, admissionCond_true_right]

theorem reconcileNode_join {σ : Type} (K : Cluster σ) (config : Config) (node node' : Node)
    (masterPod slavePod : Option Pod) (s : σ) (key val : String)
    (hk : labelKey config.failoverPoolLabel = some key)
    (hv : labelVal config.failoverPoolLabel = some val)
    (hn : setLabel node key val = some node')
    (hin : GoMap.contains node.labels key = false)
    (hc : admissionCond node masterPod false = true) :
    reconcileNode K config node masterPod slavePod s =
      ⟨.ret node', (K.updateNode node' s).2,
        (joinPool K config node s).trace ++
          (if config.logEveryRun then [.logPrintf (logStr node' masterPod slavePod)] else [])⟩ := by
  have he := joinPool_eq K config node node' key val s hk hv hn
  simp only [reconcileNode, isNodeInPool_eq node _ key hk, hin, hc, orPanic, run_bind, M.bind,
    run_mpure, if_true, evictionCond_false_right, he]
  cases config.logEveryRun <;> simp [M.bind, logPrintf_eq, hc, he]

theorem reconcileNode_join_panic {σ : Type} (K : Cluster σ) (config : Config) (node : Node)
    (masterPod slavePod : Option Pod) (s : σ) (key : String)
    (hk : labelKey config.failoverPoolLabel = some key)
    (hp : labelVal config.failoverPoolLabel = none ∨ node.labels = none)
    (hin : GoMap.contains node.labels key = false)
    (hc : admissionCond node masterPod false = true) :
    reconcileNode K config node masterPod slavePod s = ⟨.panic, s, [.enter .addNodeToPool]⟩ := by
  have he := joinPool_panic K config node s hp
  simp [reconcileNode, isNodeInPool_eq node _ key hk, hin, hc, orPanic, M.bind,
    evictionCond_false_right, he]

theorem reconcileNode_noop {σ : Type} (K : Cluster σ) (config : Config) (node : Node)
    (masterPod slavePod : Option Pod) (s : σ) (key : String)
    (hk : labelKey config.failoverPoolLabel = some key)
    (he : evictionCond node masterPod (GoMap.contains node.labels key) = false)
    (ha : admissionCond node masterPod (GoMap.contains node.labels key) = false) :
    reconcileNode K config node masterPod slavePod s =
      ⟨.ret node, s,
        if config.logEveryRun then [.logPrintf (logStr node masterPod slavePod)] else []⟩ := by
  simp only [reconcileNode, isNodeInPool_eq node _ key hk, he, ha, orPanic, run_bind, M.bind,
    run_mpure]
  cases config.logEveryRun <;> simp [M.bind, logPrintf_eq, he, ha]

theorem calls_logs (f : Fn) (b : Bool) (msg : String) :
    calls f (if b then [Event.logPrintf msg] else []) = 0 := by
  cases b <;> simp [calls]

theorem nodeUpdates_logs (b : Bool) (msg : String) :
    nodeUpdates (if b then [Event.logPrintf msg] else []) = [] := by
  cases b <;> simp [nodeUpdates]

theorem deploymentUpdates_logs (b : Bool) (msg : String) :
    deploymentUpdates (if b then [Event.logPrintf msg] else []) = [] := by
  cases b <;> simp [deploymentUpdates]

theorem mutations_logs (b : Bool) (msg : String) :
    mutations (if b then [Event.logPrintf msg] else []) = [] := by
  cases b <;> simp [mutations, Event.isMutation]

theorem calls_append (f : Fn) (t1 t2 : List Event) :
    calls f (t1 ++ t2) = calls f t1 + calls f t2 := by
  simp [calls]

theorem nodeUpdates_append (t1 t2 : List Event) :
    nodeUpdates (t1 ++ t2) = nodeUpdates t1 ++ nodeUpdates t2 := by
  simp [nodeUpdates]

theorem deploymentUpdates_append (t1 t2 : List Event) :
    deploymentUpdates (t1 ++ t2) = deploymentUpdates t1 ++ deploymentUpdates t2 := by
  simp [deploymentUpdates]

theorem dropLabel_of_contains (node : Node) (key : String)
    (h : GoMap.contains node.labels key = true) :
    dropLabel node key = { node with labels := GoMap.delete node.labels key } := by
  simp [dropLabel, h]

theorem evictionCond_of_unhealthy (node : Node) (masterPod : Option Pod)
    (h : masterPod = none ∨ (∃ p, masterPod = some p ∧ isReadyPod p = false) ∨
      isReadyNode node = false) :
    evictionCond node masterPod true = true := by
  rcases h with rfl | ⟨p, rfl, hp⟩ | hn
  · rfl
  · simp [evictionCond, hp]
  · cases masterPod <;> simp [evictionCond, hn]

theorem admissionCond_of_healthy (node : Node) (p : Pod)
    (hp : isReadyPod p = true) (hn : isReadyNode node = true) :
    admissionCond node (some p) false = true := by
  simp [admissionCond, hp, hn]

theorem admissionCond_of_evictionCond (node node' : Node) (masterPod : Option Pod) (b : Bool)
    (hc : node'.conditions = node.conditions) (h : evictionCond node masterPod true = true) :
    admissionCond node' masterPod b = false := by
  have hr : isReadyNode node' = isReadyNode node := by simp [isReadyNode, hc]
  cases masterPod with
  | none => simp [admissionCond]
  | some p =>
    simp only [evictionCond, Bool.and_true, Bool.or_eq_true, Bool.not_eq_true'] at h
    rcases h with h | h <;> simp [admissionCond, hr, h]

theorem evictionCond_of_admissionCond (node node' : Node) (masterPod : Option Pod) (b : Bool)
    (hc : node'.conditions = node.conditions) (h : admissionCond node masterPod false = true) :
    evictionCond node' masterPod b = false := by
  have hr : isReadyNode node' = isReadyNode node := by simp [isReadyNode, hc]
  cases masterPod with
  | none => simp [admissionCond] at h
  | some p =>
    simp only [admissionCond, Bool.not_false, Bool.and_true, Bool.and_eq_true] at h
    simp [evictionCond, hr, h.1, h.2]

theorem setLabel_spec (node node' : Node) (key val : String)
    (h : setLabel node key val = some node') :
    node'.name = node.name ∧ node'.conditions = node.conditions ∧
      GoMap.set node.labels key val = some node'.labels := by
  unfold setLabel at h
  split at h
  · exact absurd h (by simp)
  · next labels hl =>
    simp only [Option.some.injEq] at h
    subst h
    exact ⟨rfl, rfl, hl⟩

theorem setLabel_isSome (node : Node) (key val : String) (h : node.labels ≠ none) :
    ∃ node', setLabel node key val = some node' := by
  obtain ⟨m', hm⟩ := Option.isSome_iff_exists.mp
    ((GoMap.set_isSome_iff node.labels key val).mpr h)
  exact ⟨{ node with labels := m' }, by simp [setLabel, hm]⟩

theorem reconcileNode_calls {σ : Type} (K : Cluster σ) (config : Config) (node : Node)
    (masterPod slavePod : Option Pod) (s : σ) (b : Bool)
    (hin : isNodeInPool node config.failoverPoolLabel = some b) :
    calls .removeNodeFromPool (reconcileNode K config node masterPod slavePod s).trace =
      (if evictionCond node masterPod b then 1 else 0) ∧
    calls .addNodeToPool (reconcileNode K config node masterPod slavePod s).trace =
      (if admissionCond node masterPod b then 1 else 0) := by
  obtain ⟨key, hk⟩ := Option.isSome_iff_exists.mp (labelKey_isSome config.failoverPoolLabel)
  rw [isNodeInPool_eq node _ key hk, Option.some.injEq] at hin
  cases he : evictionCond node masterPod b with
  | true =>
    have hb : b = true := by
      cases b
      · simp [evictionCond] at he
      · rfl
    subst hb
    obtain ⟨s1, t, hl, h1, h2, -, -⟩ := leavePool_obs K config node slavePod s key hk
    rw [reconcileNode_leave K config node masterPod slavePod s key hk hin he, hl]
    simp [calls_append, calls_logs, h1, h2, admissionCond_true_right]
  | false =>
    cases ha : admissionCond node masterPod b with
    | true =>
      have hb : b = false := by
        cases b
        · rfl
        · simp [admissionCond] at ha
      subst hb
      by_cases hp : labelVal config.failoverPoolLabel = none ∨ node.labels = none
      · rw [reconcileNode_join_panic K config node masterPod slavePod s key hk hp hin ha]
        simp [calls]
      · obtain ⟨val, hv⟩ := Option.ne_none_iff_exists'.mp (fun e => hp (Or.inl e))
        obtain ⟨node', hn⟩ := setLabel_isSome node key val (fun e => hp (Or.inr e))
        rw [reconcileNode_join K config node node' masterPod slavePod s key val hk hv hn hin ha,
          joinPool_eq K config node node' key val s hk hv hn]
        simp only [calls_append, calls_logs]
        simp [calls]
    | false =>
      rw [← hin] at he ha
      rw [reconcileNode_noop K config node masterPod slavePod s key hk he ha]
      simp [calls_logs]

/-! ## The pod queries -/

theorem getSlavePod_ok {σ : Type} (K : Cluster σ) (node : Node) (ns selector label : String)
    (s : σ) (podLabels key : String) (pods : List Pod)
    (hp : K.parseSelector selector = .ok podLabels)
    (hl : (K.listPods ns ("spec.nodeName=" ++ node.name) podLabels s).1 = .ok pods)
    (hk : labelKey label = some key) :
    getSlavePod K node ns selector label s =
      ⟨.ret (.ok (firstWithNodeSelectorKey key pods)),
        (K.listPods ns ("spec.nodeName=" ++ node.name) podLabels s).2,
        [.podsList ns ("spec.nodeName=" ++ node.name) podLabels]⟩ := by
  cases pods with
  | nil => simp [getSlavePod, hp, hl, M.bind, emit, request, firstWithNodeSelectorKey]
  | cons p ps => simp [getSlavePod, hp, hl, hk, M.bind, emit, request, orPanic]

theorem getSlavePod_parse_failed {σ : Type} (K : Cluster σ) (node : Node)
    (ns selector label : String) (s : σ) (err : Err)
    (hp : K.parseSelector selector = .error err) :
    getSlavePod K node ns selector label s =
      ⟨.ret (.error ("Failed to parse slave pod selector: " ++ err)), s, []⟩ := by
  simp [getSlavePod, hp]

theorem getSlavePod_list_failed {σ : Type} (K : Cluster σ) (node : Node)
    (ns selector label : String) (s : σ) (podLabels : String) (err : Err)
    (hp : K.parseSelector selector = .ok podLabels)
    (hl : (K.listPods ns ("spec.nodeName=" ++ node.name) podLabels s).1 = .error err) :
    getSlavePod K node ns selector label s =
      ⟨.ret (.error ("Failed to list slave pods: " ++ err)),
        (K.listPods ns ("spec.nodeName=" ++ node.name) podLabels s).2,
        [.podsList ns ("spec.nodeName=" ++ node.name) podLabels]⟩ := by
  simp [getSlavePod, hp, hl, M.bind, emit, request]

theorem getSlavePod_returns {σ : Type} (K : Cluster σ) (node : Node)
    (ns selector label : String) (s : σ) :
    ∃ r s1 t, getSlavePod K node ns selector label s = ⟨.ret r, s1, t⟩ ∧ mutations t = [] := by
  obtain ⟨key, hk⟩ := Option.isSome_iff_exists.mp (labelKey_isSome label)
  cases hp : K.parseSelector selector with
  | error err => exact ⟨_, _, _, getSlavePod_parse_failed K node ns selector label s err hp, rfl⟩
  | ok podLabels =>
    cases hl : (K.listPods ns ("spec.nodeName=" ++ node.name) podLabels s).1 with
    | error err =>
      exact ⟨_, _, _, getSlavePod_list_failed K node ns selector label s podLabels err hp hl, rfl⟩
    | ok pods =>
      exact ⟨_, _, _, getSlavePod_ok K node ns selector label s podLabels key pods hp hl hk, rfl⟩

theorem getMasterPod_parse_failed {σ : Type} (K : Cluster σ) (node : Node) (selector : String)
    (s : σ) (err : Err) (hp : K.parseSelector selector = .error err) :
    getMasterPod K node selector s =
      ⟨.ret (.error ("Failed to parse master pod selector: " ++ err)), s, []⟩ := by
  simp [getMasterPod, hp]

theorem getMasterPod_namespace_failed {σ : Type} (K : Cluster σ) (node : Node)
    (selector : String) (s : σ) (podLabels : String) (err : Err)
    (hp : K.parseSelector selector = .ok podLabels)
    (hn : K.readNamespaceFile s = .error err) :
    getMasterPod K node selector s =
      ⟨.ret (.error ("Failed to get current namespace: " ++ err)), s, []⟩ := by
  simp [getMasterPod, hp, hn, M.bind, readState]

theorem getMasterPod_list_failed {σ : Type} (K : Cluster σ) (node : Node) (selector : String)
    (s : σ) (podLabels ns : String) (err : Err)
    (hp : K.parseSelector selector = .ok podLabels) (hn : K.readNamespaceFile s = .ok ns)
    (hl : (K.listPods ns ("spec.nodeName=" ++ node.name) podLabels s).1 = .error err) :
    getMasterPod K node selector s =
      ⟨.ret (.error ("Failed to filter master pods: " ++ err)),
        (K.listPods ns ("spec.nodeName=" ++ node.name) podLabels s).2,
        [.podsList ns ("spec.nodeName=" ++ node.name) podLabels]⟩ := by
  simp [getMasterPod, hp, hn, hl, M.bind, readState, emit, request]

theorem getMasterPod_ok {σ : Type} (K : Cluster σ) (node : Node) (selector : String)
    (s : σ) (podLabels ns : String) (pods : List Pod)
    (hp : K.parseSelector selector = .ok podLabels) (hn : K.readNamespaceFile s = .ok ns)
    (hl : (K.listPods ns ("spec.nodeName=" ++ node.name) podLabels s).1 = .ok pods) :
    getMasterPod K node selector s =
      ⟨.ret (.ok pods.head?),
        (K.listPods ns ("spec.nodeName=" ++ node.name) podLabels s).2,
        [.podsList ns ("spec.nodeName=" ++ node.name) podLabels]⟩ := by
  cases pods <;> simp [getMasterPod, hp, hn, hl, M.bind, readState, emit, request]

theorem getMasterPod_returns {σ : Type} (K : Cluster σ) (node : Node) (selector : String)
    (s : σ) :
    ∃ r s1 t, getMasterPod K node selector s = ⟨.ret r, s1, t⟩ ∧ mutations t = [] := by
  cases hp : K.parseSelector selector with
  | error err => exact ⟨_, _, _, getMasterPod_parse_failed K node selector s err hp, rfl⟩
  | ok podLabels =>
    cases hn : K.readNamespaceFile s with
    | error err =>
      exact ⟨_, _, _, getMasterPod_namespace_failed K node selector s podLabels err hp hn, rfl⟩
    | ok ns =>
      cases hl : (K.listPods ns ("spec.nodeName=" ++ node.name) podLabels s).1 with
      | error err =>
        exact ⟨_, _, _, getMasterPod_list_failed K node selector s podLabels ns err hp hn hl, rfl⟩
      | ok pods =>
        exact ⟨_, _, _, getMasterPod_ok K node selector s podLabels ns pods hp hn hl, rfl⟩

/-! ## The claims -/

/-- C5. `isReadyPod pod` holds exactly when the pod has no deletion timestamp and one of its
conditions has type `Ready` and status `True`; so a pod with a deletion timestamp is never
ready, whatever its conditions, and a pod without conditions is never ready. -/
theorem isReadyPod_iff (pod : Pod) :
    (isReadyPod pod = true ↔
      pod.deletionTimestamp = none ∧
        ∃ c ∈ pod.conditions, c.type = "Ready" ∧ c.status = "True") ∧
    (∀ stamp : String, isReadyPod { pod with deletionTimestamp := some stamp } = false) ∧
    isReadyPod { pod with conditions := [] } = false := by
  refine ⟨?_, ?_, ?_⟩
  · simp only [isReadyPod, condReady, conditionTrue, List.any_eq_true, Bool.and_eq_true,
      beq_iff_eq, Option.isNone_iff_eq_none]
    constructor
    · rintro ⟨c, hc, ⟨hd, ht⟩, hs⟩
      exact ⟨hd, c, hc, ht, hs⟩
    · rintro ⟨hd, c, hc, ht, hs⟩
      exact ⟨c, hc, ⟨hd, ht⟩, hs⟩
  · intro stamp
    simp [isReadyPod]
  · simp [isReadyPod]

/-- C10. For every failover-pool label string, the empty one included, index 0 of
`strings.Split(label, "=")` is in range, so `isNodeInPool`, `removeNodeFromPool` and
`getSlavePod` never panic; and when the label contains an `=`, index 1 is in range as well,
so `addNodeToPool` panics only on a node whose label map is nil. -/
theorem label_split_in_range (label : String) :
    (labelKey label).isSome = true ∧
    (∀ node : Node, (isNodeInPool node label).isSome = true) ∧
    (∀ (σ : Type) (K : Cluster σ) (node : Node) (s : σ),
      (removeNodeFromPool K node label s).out ≠ .panic) ∧
    (∀ (σ : Type) (K : Cluster σ) (node : Node) (ns selector : String) (s : σ),
      (getSlavePod K node ns selector label s).out ≠ .panic) ∧
    ('=' ∈ label.data →
      (labelVal label).isSome = true ∧
      ∀ (σ : Type) (K : Cluster σ) (node : Node) (s : σ),
        (addNodeToPool K node label s).out = .panic ↔ node.labels = none) := by
  obtain ⟨key, hk⟩ := Option.isSome_iff_exists.mp (labelKey_isSome label)
  refine ⟨labelKey_isSome label, ?_, ?_, ?_, ?_⟩
  · intro node
    simp [isNodeInPool, hk]
  · intro σ K node s
    simp [removeNodeFromPool_eq K node label key s hk]
  · intro σ K node ns selector s
    obtain ⟨r, s1, t, h, -⟩ := getSlavePod_returns K node ns selector label s
    simp [h]
  · intro hmem
    refine ⟨labelVal_isSome label hmem, ?_⟩
    obtain ⟨val, hv⟩ := Option.isSome_iff_exists.mp (labelVal_isSome label hmem)
    intro σ K node s
    constructor
    · intro hp
      by_contra hne
      obtain ⟨m', hm⟩ := Option.isSome_iff_exists.mp
        ((GoMap.set_isSome_iff node.labels key val).mpr hne)
      have hn : setLabel node key val = some { node with labels := m' } := by
        simp [setLabel, hm]
      rw [addNodeToPool_eq K node _ label key val s hk hv hn] at hp
      simp at hp
    · intro hnil
      rw [addNodeToPool_panic K node label s (Or.inr hnil)]

/-- Witness for C10: the label `pool=true`. -/
theorem label_split_in_range_witness :
    '=' ∈ "pool=true".data ∧ (labelVal "pool=true").isSome = true :=
  ⟨by decide, ((label_split_in_range "pool=true").2.2.2.2 (by decide)).1⟩

/-- C9. When the store answers the slave-pod list request of a node with `pods`, and the pool
label is `k=v`, `getSlavePod` returns without error the first pod of `pods`, in list order,
whose node selector has key `k`: every pod before it lacks `k`. It returns nil exactly when
no pod of the list has `k` in its node selector, as for the empty list. -/
theorem getSlavePod_first_match {σ : Type} (K : Cluster σ) (node : Node)
    (ns selector k v podLabels : String) (pods : List Pod) (s : σ)
    (hk : '=' ∉ k.data)
    (hp : K.parseSelector selector = .ok podLabels)
    (hl : (K.listPods ns ("spec.nodeName=" ++ node.name) podLabels s).1 = .ok pods) :
    ∃ r : Option Pod,
      (getSlavePod K node ns selector (k ++ "=" ++ v) s).out = .ret (.ok r) ∧
      (∀ p : Pod, r = some p ↔
        ∃ before after, pods = before ++ p :: after ∧
          GoMap.contains p.nodeSelector k = true ∧
          ∀ q ∈ before, GoMap.contains q.nodeSelector k = false) ∧
      (r = none ↔ ∀ q ∈ pods, GoMap.contains q.nodeSelector k = false) := by
  refine ⟨firstWithNodeSelectorKey k pods, ?_, ?_, ?_⟩
  · rw [getSlavePod_ok K node ns selector _ s podLabels k pods hp hl (labelKey_kv k v hk)]
  · intro p
    unfold firstWithNodeSelectorKey
    rw [List.find?_eq_some]
    constructor
    · rintro ⟨hp1, before, after, he, hb⟩
      exact ⟨before, after, he, hp1, fun q hq => by simpa using hb q hq⟩
    · rintro ⟨before, after, he, hp1, hb⟩
      exact ⟨hp1, before, after, he, fun q hq => by simpa using hb q hq⟩
  · unfold firstWithNodeSelectorKey
    rw [List.find?_eq_none]
    simp

/-- Witness for C9: the calm cluster lists an unbound slave pod before the bound one. -/
theorem getSlavePod_first_match_witness :
    ∃ r : Option Pod,
      (getSlavePod (scripted calmScript) (pooledNode "n1") "apps" "role=slave"
        ("pool" ++ "=" ++ "true") ()).out = .ret (.ok r) ∧
      (∀ p : Pod, r = some p ↔
        ∃ before after, [unboundSlave, demoSlave] = before ++ p :: after ∧
          GoMap.contains p.nodeSelector "pool" = true ∧
          ∀ q ∈ before, GoMap.contains q.nodeSelector "pool" = false) ∧
      (r = none ↔ ∀ q ∈ [unboundSlave, demoSlave], GoMap.contains q.nodeSelector "pool" = false) :=
  getSlavePod_first_match (scripted calmScript) (pooledNode "n1") "apps" "role=slave" "pool" "true"
    "role=slave" [unboundSlave, demoSlave] () (by decide) rfl rfl

/-- C8, as the spec states it, fails: the ReplicaSet `web-5d4f8` of `oddSlave` does not end
with `-77777`, yet `getDeploymentByPod` reports no error; it asks the store for the
deployment `web-5d4f8`, the owner name itself, and returns what the store has under that
name. -/
theorem getDeploymentByPod_unmatched_hash_no_error :
    firstReplicaSetOwner oddSlave = some ⟨"ReplicaSet", "web-5d4f8"⟩ ∧
    GoMap.getD oddSlave.labels "pod-template-hash" = "77777" ∧
    hasSuffix "web-5d4f8" ("-" ++ "77777") = false ∧
    getDeploymentByPod (scripted calmScript) oddSlave "apps" () =
      ⟨.ret (.ok (some (bareDeployment "web-5d4f8"))), (),
        [.enter .getDeploymentByPod, .deploymentsGet "apps" "web-5d4f8"]⟩ :=
  ⟨by decide, by decide, by decide, rfl⟩

/-- C8, amended. For a pod whose first owner reference of kind `ReplicaSet` is named `O`, with
`h` its `pod-template-hash` label (the empty string when the label is missing),
`getDeploymentByPod` asks the store for one deployment: `O` without the trailing `-h` when
`O` ends with `-h`, and `O` itself, unchanged, when it does not. The derivation never
fails; the result is the deployment the store returns, or the store's error. For a pod
without a `ReplicaSet` owner reference the result is nil with no error and no request. -/
theorem getDeploymentByPod_name {σ : Type} (K : Cluster σ) (ns : String) (s : σ) :
    (∀ (pod : Pod) (o : OwnerRef), firstReplicaSetOwner pod = some o →
      (∃ name,
        (getDeploymentByPod K pod ns s).trace =
          [.enter .getDeploymentByPod, .deploymentsGet ns name] ∧
        (getDeploymentByPod K pod ns s).out =
          .ret (match (K.getDeployment ns name s).1 with
            | .error err => .error ("Failed to get pod's deployment: " ++ err)
            | .ok d => .ok (some d)) ∧
        (∀ stem : String,
          o.name = stem ++ ("-" ++ GoMap.getD pod.labels "pod-template-hash") → name = stem) ∧
        (hasSuffix o.name ("-" ++ GoMap.getD pod.labels "pod-template-hash") = false →
          name = o.name))) ∧
    (∀ pod : Pod, firstReplicaSetOwner pod = none →
      getDeploymentByPod K pod ns s = ⟨.ret (.ok none), s, [.enter .getDeploymentByPod]⟩) := by
  refine ⟨?_, ?_⟩
  · intro pod o h
    refine ⟨deploymentNameOf pod o, ?_, ?_, ?_, ?_⟩
    · rw [getDeploymentByPod_some K pod ns s o h]
    · rw [getDeploymentByPod_some K pod ns s o h]
    · intro stem hs
      unfold deploymentNameOf
      simp only [hs]
      rw [trimSuffix_append]
    · intro hs
      exact trimSuffix_of_not_hasSuffix _ _ hs
  · intro pod h
    exact getDeploymentByPod_none K pod ns s h

/-- Witness for C8: the slave pod of ReplicaSet `web-5d4f8` with hash `5d4f8` leads to a
request for the deployment `web`. -/
theorem getDeploymentByPod_name_witness :
    firstReplicaSetOwner demoSlave = some ⟨"ReplicaSet", "web-5d4f8"⟩ ∧
    ∃ name,
      (getDeploymentByPod (scripted calmScript) demoSlave "apps" ()).trace =
        [.enter .getDeploymentByPod, .deploymentsGet "apps" name] ∧
      name = "web" := by
  refine ⟨by decide, ?_⟩
  obtain ⟨name, h1, -, h3, -⟩ :=
    (getDeploymentByPod_name (scripted calmScript) "apps" ()).1 demoSlave
      ⟨"ReplicaSet", "web-5d4f8"⟩ (by decide)
  exact ⟨name, h1, h3 "web" (by decide)⟩

/-- C1. On a snapshot whose node is in the pool, and whose master pod is absent, or not
ready, or whose node is not ready, the loop body of `Run` leaves the pool: it enters
`removeNodeFromPool` once and `addNodeToPool` never, and the one node it submits to the
store is the node without the pool label key. This holds for every slave pod, present or
absent, and for every answer of the cluster. -/
theorem eviction_leaves_pool {σ : Type} (K : Cluster σ) (config : Config) (node : Node)
    (masterPod slavePod : Option Pod) (s : σ)
    (hin : isNodeInPool node config.failoverPoolLabel = some true)
    (hbad : masterPod = none ∨ (∃ p, masterPod = some p ∧ isReadyPod p = false) ∨
      isReadyNode node = false) :
    ∃ key, labelKey config.failoverPoolLabel = some key ∧
      (reconcileNode K config node masterPod slavePod s).out =
        .ret { node with labels := GoMap.delete node.labels key } ∧
      calls .removeNodeFromPool (reconcileNode K config node masterPod slavePod s).trace = 1 ∧
      calls .addNodeToPool (reconcileNode K config node masterPod slavePod s).trace = 0 ∧
      nodeUpdates (reconcileNode K config node masterPod slavePod s).trace =
        [{ node with labels := GoMap.delete node.labels key }] ∧
      GoMap.contains (GoMap.delete node.labels key) key = false := by
  obtain ⟨key, hk⟩ := Option.isSome_iff_exists.mp (labelKey_isSome config.failoverPoolLabel)
  have hc : GoMap.contains node.labels key = true := by
    rw [isNodeInPool_eq node _ key hk, Option.some.injEq] at hin
    exact hin
  have he := evictionCond_of_unhealthy node masterPod hbad
  obtain ⟨s1, t, hl, h1, h2, h3, -⟩ := leavePool_obs K config node slavePod s key hk
  refine ⟨key, hk, ?_, ?_, ?_, ?_, GoMap.contains_delete _ _⟩
  · rw [reconcileNode_leave K config node masterPod slavePod s key hk hc he,
      dropLabel_of_contains node key hc]
  · rw [reconcileNode_leave K config node masterPod slavePod s key hk hc he, hl]
    simp [calls_append, calls_logs, h1]
  · rw [reconcileNode_leave K config node masterPod slavePod s key hk hc he, hl]
    simp [calls_append, calls_logs, h2]
  · rw [reconcileNode_leave K config node masterPod slavePod s key hk hc he, hl]
    simp [nodeUpdates_append, nodeUpdates_logs, h3, dropLabel_of_contains node key hc]

/-- Witness for C1: a pooled node without master pod, with a slave pod on it. -/
theorem eviction_leaves_pool_witness :
    ∃ key, labelKey demoConfig.failoverPoolLabel = some key ∧
      (reconcileNode (scripted calmScript) demoConfig (pooledNode "n1") none (some demoSlave)
        ()).out = .ret { pooledNode "n1" with labels := GoMap.delete (pooledNode "n1").labels key } ∧
      calls .removeNodeFromPool (reconcileNode (scripted calmScript) demoConfig (pooledNode "n1")
        none (some demoSlave) ()).trace = 1 ∧
      calls .addNodeToPool (reconcileNode (scripted calmScript) demoConfig (pooledNode "n1")
        none (some demoSlave) ()).trace = 0 ∧
      nodeUpdates (reconcileNode (scripted calmScript) demoConfig (pooledNode "n1")
        none (some demoSlave) ()).trace =
        [{ pooledNode "n1" with labels := GoMap.delete (pooledNode "n1").labels key }] ∧
      GoMap.contains (GoMap.delete (pooledNode "n1").labels key) key = false :=
  eviction_leaves_pool (scripted calmScript) demoConfig (pooledNode "n1") none (some demoSlave) ()
    (by decide) (Or.inl rfl)

/-- C2 at the failing input: a ready node whose label map is nil, with a ready master pod
and the pool label `pool=true`. The node is not in the pool and both readiness tests pass,
so the admission branch is taken; `addNodeToPool` is entered and the write
`node.Labels[key] = val` panics: no node is submitted to the store. -/
theorem admission_panics_on_nil_labels :
    isNodeInPool (bareNode "n1") demoConfig.failoverPoolLabel = some false ∧
    isReadyPod demoMaster = true ∧ isReadyNode (bareNode "n1") = true ∧
    reconcileNode (scripted calmScript) demoConfig (bareNode "n1") (some demoMaster) none () =
      ⟨.panic, (), [.enter .addNodeToPool]⟩ ∧
    nodeUpdates (reconcileNode (scripted calmScript) demoConfig (bareNode "n1")
      (some demoMaster) none ()).trace = [] := by
  decide

/-- What the admission branch does on every snapshot (supports C2): with the pool label
`k=v`, a node outside the pool, a ready master pod and a ready node, the loop body enters
`addNodeToPool` once and neither `removeNodeFromPool` nor `restartDeployment`. When the
node's label map is allocated, the one node submitted has `k` mapped to `v` and its other
labels unchanged; when the map is nil the write panics and nothing is submitted. -/
theorem admission_joins_pool {σ : Type} (K : Cluster σ) (config : Config) (node : Node)
    (p : Pod) (slavePod : Option Pod) (s : σ) (k v : String)
    (hlabel : config.failoverPoolLabel = k ++ "=" ++ v)
    (hk : '=' ∉ k.data) (hv : '=' ∉ v.data)
    (hin : isNodeInPool node config.failoverPoolLabel = some false)
    (hp : isReadyPod p = true) (hn : isReadyNode node = true) :
    calls .addNodeToPool (reconcileNode K config node (some p) slavePod s).trace = 1 ∧
    calls .removeNodeFromPool (reconcileNode K config node (some p) slavePod s).trace = 0 ∧
    calls .restartDeployment (reconcileNode K config node (some p) slavePod s).trace = 0 ∧
    deploymentUpdates (reconcileNode K config node (some p) slavePod s).trace = [] ∧
    (node.labels ≠ none →
      ∃ node', (reconcileNode K config node (some p) slavePod s).out = .ret node' ∧
        nodeUpdates (reconcileNode K config node (some p) slavePod s).trace = [node'] ∧
        GoMap.get? node'.labels k = some v ∧
        (∀ k', k' ≠ k → GoMap.get? node'.labels k' = GoMap.get? node.labels k') ∧
        node'.name = node.name ∧ node'.conditions = node.conditions) ∧
    (node.labels = none →
      (reconcileNode K config node (some p) slavePod s).out = .panic ∧
        nodeUpdates (reconcileNode K config node (some p) slavePod s).trace = []) := by
  have hkey : labelKey config.failoverPoolLabel = some k := by rw [hlabel]; exact labelKey_kv k v hk
  have hval : labelVal config.failoverPoolLabel = some v := by
    rw [hlabel]; exact labelVal_kv k v hk hv
  have hc : GoMap.contains node.labels k = false := by
    rw [isNodeInPool_eq node _ k hkey, Option.some.injEq] at hin
    exact hin
  have ha := admissionCond_of_healthy node p hp hn
  by_cases hnil : node.labels = none
  · have hr := reconcileNode_join_panic K config node (some p) slavePod s k hkey (Or.inr hnil) hc ha
    rw [hr]
    simp [calls, deploymentUpdates, nodeUpdates, hnil]
  · obtain ⟨node', hset⟩ := setLabel_isSome node k v hnil
    obtain ⟨h1, h2, h3⟩ := setLabel_spec node node' k v hset
    rw [reconcileNode_join K config node node' (some p) slavePod s k v hkey hval hset hc ha,
      joinPool_eq K config node node' k v s hkey hval hset]
    refine ⟨?_, ?_, ?_, ?_, ?_, fun h => absurd h hnil⟩
    · simp only [calls_append, calls_logs]
      simp [calls]
    · simp only [calls_append, calls_logs]
      simp [calls]
    · simp only [calls_append, calls_logs]
      simp [calls]
    · simp only [deploymentUpdates_append, deploymentUpdates_logs]
      simp [deploymentUpdates]
    · intro _
      refine ⟨node', rfl, ?_, GoMap.get?_set _ _ k v h3,
        fun k' hne => GoMap.get?_set_ne _ _ k v k' h3 hne, h1, h2⟩
      simp only [nodeUpdates_append, nodeUpdates_logs]
      simp [nodeUpdates]

/-- The scenario of the spec for admission: the ready node `n1` with an allocated, empty
label map and a ready master pod gains the label `pool` mapped to `true`. -/
theorem admission_joins_pool_witness :
    ∃ node', (reconcileNode (scripted calmScript) demoConfig
        { bareNode "n1" with labels := some [] } (some demoMaster) none ()).out = .ret node' ∧
      GoMap.get? node'.labels "pool" = some "true" := by
  obtain ⟨node', h1, -, h3, -⟩ := (admission_joins_pool (scripted calmScript) demoConfig
    { bareNode "n1" with labels := some [] } demoMaster none () "pool" "true" (by decide)
    (by decide) (by decide) (by decide) (by decide) (by decide)).2.2.2.2.1 (by decide)
  exact ⟨node', h1, h3⟩

/-- C3. On a snapshot that meets neither condition (in the pool with a ready master pod on a
ready node; or outside the pool with the master pod absent or not ready, or the node not
ready) the loop body of `Run` sends nothing to the store: no request at all, the cluster
state is untouched, and neither branch is entered. And on no snapshot are both
`removeNodeFromPool` and `addNodeToPool` entered in the same step. -/
theorem noop_issues_no_mutation {σ : Type} (K : Cluster σ) (config : Config) (node : Node)
    (masterPod slavePod : Option Pod) (s : σ) :
    (∀ inPool : Bool, isNodeInPool node config.failoverPoolLabel = some inPool →
      ((inPool = true ∧ ∃ p, masterPod = some p ∧ isReadyPod p = true ∧
          isReadyNode node = true) ∨
        (inPool = false ∧ (masterPod = none ∨ (∃ p, masterPod = some p ∧ isReadyPod p = false) ∨
          isReadyNode node = false))) →
      mutations (reconcileNode K config node masterPod slavePod s).trace = [] ∧
      nodeUpdates (reconcileNode K config node masterPod slavePod s).trace = [] ∧
      deploymentUpdates (reconcileNode K config node masterPod slavePod s).trace = [] ∧
      calls .removeNodeFromPool (reconcileNode K config node masterPod slavePod s).trace = 0 ∧
      calls .addNodeToPool (reconcileNode K config node masterPod slavePod s).trace = 0 ∧
      (reconcileNode K config node masterPod slavePod s).out = .ret node ∧
      (reconcileNode K config node masterPod slavePod s).store = s) ∧
    (calls .removeNodeFromPool (reconcileNode K config node masterPod slavePod s).trace = 0 ∨
      calls .addNodeToPool (reconcileNode K config node masterPod slavePod s).trace = 0) := by
  obtain ⟨key, hk⟩ := Option.isSome_iff_exists.mp (labelKey_isSome config.failoverPoolLabel)
  refine ⟨?_, ?_⟩
  · intro inPool hin hcase
    rw [isNodeInPool_eq node _ key hk, Option.some.injEq] at hin
    have hconds : evictionCond node masterPod (GoMap.contains node.labels key) = false ∧
        admissionCond node masterPod (GoMap.contains node.labels key) = false := by
      rw [hin]
      rcases hcase with ⟨rfl, p, rfl, hp, hn⟩ | ⟨rfl, hbad⟩
      · exact ⟨by simp [evictionCond, hp, hn], admissionCond_true_right _ _⟩
      · exact ⟨evictionCond_false_right _ _,
          admissionCond_of_evictionCond node node masterPod false rfl
            (evictionCond_of_unhealthy node masterPod hbad)⟩
    rw [reconcileNode_noop K config node masterPod slavePod s key hk hconds.1 hconds.2]
    simp [mutations_logs, nodeUpdates_logs, deploymentUpdates_logs, calls_logs]
  · have hin := isNodeInPool_eq node config.failoverPoolLabel key hk
    obtain ⟨h1, h2⟩ := reconcileNode_calls K config node masterPod slavePod s _ hin
    cases hb : GoMap.contains node.labels key with
    | true =>
      right
      rw [h2, hb, admissionCond_true_right]
      rfl
    | false =>
      left
      rw [h1, hb, evictionCond_false_right]
      rfl

/-- Witness for C3: a pooled, ready node with a ready master pod. -/
theorem noop_issues_no_mutation_witness :
    mutations (reconcileNode (scripted calmScript) demoConfig (pooledNode "n3")
      (some demoMaster) (some demoSlave) ()).trace = [] ∧
    (reconcileNode (scripted calmScript) demoConfig (pooledNode "n3")
      (some demoMaster) (some demoSlave) ()).out = .ret (pooledNode "n3") := by
  have h := (noop_issues_no_mutation (scripted calmScript) demoConfig (pooledNode "n3")
    (some demoMaster) (some demoSlave) ()).1 true (by decide)
    (Or.inl ⟨rfl, demoMaster, rfl, by decide, by decide⟩)
  exact ⟨h.1, h.2.2.2.2.2.1⟩

/-- C4. If the loop body of `Run` entered `removeNodeFromPool` or `addNodeToPool` and
returned, then the membership recomputed by `isNodeInPool` from the labels of the node as
mutated is the opposite of the one before, and running the loop body again on the mutated
node with the same master pod (hence the same pod and node readiness), on any cluster and
with any slave pod, is a no-op: no request, no branch entered, the node returned as it
is. -/
theorem rerun_after_transition_is_noop {σ τ : Type} (K : Cluster σ) (K2 : Cluster τ)
    (config : Config) (node node' : Node) (masterPod slavePod slavePod2 : Option Pod)
    (s : σ) (s2 : τ)
    (hout : (reconcileNode K config node masterPod slavePod s).out = .ret node')
    (hact : calls .removeNodeFromPool (reconcileNode K config node masterPod slavePod s).trace = 1 ∨
      calls .addNodeToPool (reconcileNode K config node masterPod slavePod s).trace = 1) :
    (∃ inPool : Bool, isNodeInPool node config.failoverPoolLabel = some inPool ∧
      isNodeInPool node' config.failoverPoolLabel = some (!inPool)) ∧
    isReadyNode node' = isReadyNode node ∧
    mutations (reconcileNode K2 config node' masterPod slavePod2 s2).trace = [] ∧
    calls .removeNodeFromPool (reconcileNode K2 config node' masterPod slavePod2 s2).trace = 0 ∧
    calls .addNodeToPool (reconcileNode K2 config node' masterPod slavePod2 s2).trace = 0 ∧
    (reconcileNode K2 config node' masterPod slavePod2 s2).out = .ret node' ∧
    (reconcileNode K2 config node' masterPod slavePod2 s2).store = s2 := by
  obtain ⟨key, hk⟩ := Option.isSome_iff_exists.mp (labelKey_isSome config.failoverPoolLabel)
  have hin := isNodeInPool_eq node config.failoverPoolLabel key hk
  obtain ⟨h1, h2⟩ := reconcileNode_calls K config node masterPod slavePod s _ hin
  -- the shape of the second run, from the two guards on the mutated node
  have second : ∀ b : Bool, GoMap.contains node'.labels key = b →
      evictionCond node' masterPod b = false → admissionCond node' masterPod b = false →
      mutations (reconcileNode K2 config node' masterPod slavePod2 s2).trace = [] ∧
      calls .removeNodeFromPool (reconcileNode K2 config node' masterPod slavePod2 s2).trace = 0 ∧
      calls .addNodeToPool (reconcileNode K2 config node' masterPod slavePod2 s2).trace = 0 ∧
      (reconcileNode K2 config node' masterPod slavePod2 s2).out = .ret node' ∧
      (reconcileNode K2 config node' masterPod slavePod2 s2).store = s2 := by
    intro b hb he ha
    rw [← hb] at he ha
    rw [reconcileNode_noop K2 config node' masterPod slavePod2 s2 key hk he ha]
    simp [mutations_logs, calls_logs]
  cases hb : GoMap.contains node.labels key with
  | true =>
    rw [hb] at h1 h2
    cases he : evictionCond node masterPod true with
    | false =>
      rw [he] at h1
      rw [admissionCond_true_right] at h2
      rcases hact with h | h
      · rw [h1] at h
        exact absurd h (by decide)
      · rw [h2] at h
        exact absurd h (by decide)
    | true =>
      rw [reconcileNode_leave K config node masterPod slavePod s key hk hb he] at hout
      simp only [Outcome.ret.injEq] at hout
      subst hout
      have hc : (dropLabel node key).conditions = node.conditions := by
        rw [dropLabel_of_contains node key hb]
      have hl : GoMap.contains (dropLabel node key).labels key = false := by
        rw [dropLabel_of_contains node key hb]
        exact GoMap.contains_delete _ _
      refine ⟨⟨true, by rw [hin, hb], by rw [isNodeInPool_eq _ _ key hk, hl]; rfl⟩, ?_, ?_⟩
      · simp [isReadyNode, hc]
      · exact second false hl (evictionCond_false_right _ _)
          (admissionCond_of_evictionCond node _ masterPod false hc he)
  | false =>
    rw [hb] at h1 h2
    cases ha : admissionCond node masterPod false with
    | false =>
      rw [ha] at h2
      rw [evictionCond_false_right] at h1
      rcases hact with h | h
      · rw [h1] at h
        exact absurd h (by decide)
      · rw [h2] at h
        exact absurd h (by decide)
    | true =>
      by_cases hp : labelVal config.failoverPoolLabel = none ∨ node.labels = none
      · rw [reconcileNode_join_panic K config node masterPod slavePod s key hk hp hb ha] at hout
        exact absurd hout (by simp)
      · obtain ⟨val, hv⟩ := Option.ne_none_iff_exists'.mp (fun e => hp (Or.inl e))
        obtain ⟨node1, hn⟩ := setLabel_isSome node key val (fun e => hp (Or.inr e))
        rw [reconcileNode_join K config node node1 masterPod slavePod s key val hk hv hn hb ha]
          at hout
        simp only [Outcome.ret.injEq] at hout
        subst hout
        obtain ⟨-, hc, hset⟩ := setLabel_spec node node1 key val hn
        have hl : GoMap.contains node1.labels key = true := GoMap.contains_set _ _ key val hset
        refine ⟨⟨false, by rw [hin, hb], by rw [isNodeInPool_eq _ _ key hk, hl]; rfl⟩, ?_, ?_⟩
        · simp [isReadyNode, hc]
        · exact second true hl (evictionCond_of_admissionCond node _ masterPod true hc ha)
            (admissionCond_true_right _ _)

/-- Witness for C4: the pooled node `n1` has no master pod, leaves the pool, and the second
run on the node without the label does nothing. -/
theorem rerun_after_transition_is_noop_witness :
    mutations (reconcileNode (scripted calmScript) demoConfig
      { pooledNode "n1" with labels := some [] } none none ()).trace = [] ∧
    (reconcileNode (scripted calmScript) demoConfig
      { pooledNode "n1" with labels := some [] } none none ()).out =
        .ret { pooledNode "n1" with labels := some [] } := by
  have h := rerun_after_transition_is_noop (scripted calmScript) (scripted calmScript) demoConfig
    (pooledNode "n1") { pooledNode "n1" with labels := some [] } none (some demoSlave) none () ()
    (by decide) (Or.inl (by decide))
  exact ⟨h.2.2.1, h.2.2.2.2.2.1⟩

/-! ## The pass -/

theorem annotateRestart_nil (d : Deployment) (stamp : String)
    (h : d.templateAnnotations = none) : annotateRestart d stamp = d := by
  simp [annotateRestart, h]

theorem annotateRestart_allocated (d : Deployment) (stamp : String)
    (l : List (String × String)) (h : d.templateAnnotations = some l) :
    GoMap.get? (annotateRestart d stamp).templateAnnotations restartedAtKey = some stamp ∧
    (∀ k, k ≠ restartedAtKey →
      GoMap.get? (annotateRestart d stamp).templateAnnotations k =
        GoMap.get? d.templateAnnotations k) ∧
    (annotateRestart d stamp).name = d.name ∧
    (annotateRestart d stamp).namespace_ = d.namespace_ := by
  have hs : GoMap.set d.templateAnnotations restartedAtKey stamp =
      some (annotateRestart d stamp).templateAnnotations := by
    simp [annotateRestart, h, GoMap.set]
  refine ⟨GoMap.get?_set _ _ _ _ hs, fun k hk => GoMap.get?_set_ne _ _ _ _ k hs hk, ?_, ?_⟩ <;>
    simp [annotateRestart, h]

theorem reconcileNode_no_exit {σ : Type} (K : Cluster σ) (config : Config) (node : Node)
    (masterPod slavePod : Option Pod) (s : σ) :
    (reconcileNode K config node masterPod slavePod s).out ≠ .exit := by
  obtain ⟨key, hk⟩ := Option.isSome_iff_exists.mp (labelKey_isSome config.failoverPoolLabel)
  cases hb : GoMap.contains node.labels key with
  | true =>
    cases he : evictionCond node masterPod true with
    | true =>
      rw [reconcileNode_leave K config node masterPod slavePod s key hk hb he]
      simp
    | false =>
      rw [reconcileNode_noop K config node masterPod slavePod s key hk (by rw [hb]; exact he)
        (by rw [hb]; exact admissionCond_true_right _ _)]
      simp
  | false =>
    cases ha : admissionCond node masterPod false with
    | true =>
      by_cases hp : labelVal config.failoverPoolLabel = none ∨ node.labels = none
      · rw [reconcileNode_join_panic K config node masterPod slavePod s key hk hp hb ha]
        simp
      · obtain ⟨val, hv⟩ := Option.ne_none_iff_exists'.mp (fun e => hp (Or.inl e))
        obtain ⟨node', hn⟩ := setLabel_isSome node key val (fun e => hp (Or.inr e))
        rw [reconcileNode_join K config node node' masterPod slavePod s key val hk hv hn hb ha]
        simp
    | false =>
      rw [reconcileNode_noop K config node masterPod slavePod s key hk
        (by rw [hb]; exact evictionCond_false_right _ _) (by rw [hb]; exact ha)]
      simp

theorem runNode_master_failed {σ : Type} (K : Cluster σ) (config : Config) (node : Node)
    (s : σ) (err : Err)
    (h : (getMasterPod K node config.masterPodSelector s).out = .ret (.error err)) :
    runNode K config node s =
      ⟨.exit, (getMasterPod K node config.masterPodSelector s).store,
        (getMasterPod K node config.masterPodSelector s).trace ++
          [.logFatalf ("Failed to get master pod: " ++ err)]⟩ := by
  obtain ⟨r, s1, t, he, -⟩ := getMasterPod_returns K node config.masterPodSelector s
  rw [he] at h ⊢
  simp only [Outcome.ret.injEq] at h
  subst h
  simp [runNode, M.bind, he, logFatalf]

theorem runNode_slave_failed {σ : Type} (K : Cluster σ) (config : Config) (node : Node)
    (s s1 : σ) (t1 : List Event) (masterPod : Option Pod) (err : Err)
    (hm : getMasterPod K node config.masterPodSelector s = ⟨.ret (.ok masterPod), s1, t1⟩)
    (h : (getSlavePod K node config.slavePodNamespace config.slavePodSelector
      config.failoverPoolLabel s1).out = .ret (.error err)) :
    runNode K config node s =
      ⟨.exit, (getSlavePod K node config.slavePodNamespace config.slavePodSelector
          config.failoverPoolLabel s1).store,
        t1 ++ ((getSlavePod K node config.slavePodNamespace config.slavePodSelector
          config.failoverPoolLabel s1).trace ++
          [.logFatalf ("Failed to get slave pods: " ++ err)])⟩ := by
  obtain ⟨r, s2, t, he, -⟩ := getSlavePod_returns K node config.slavePodNamespace
    config.slavePodSelector config.failoverPoolLabel s1
  rw [he] at h ⊢
  simp only [Outcome.ret.injEq] at h
  subst h
  simp [runNode, M.bind, hm, he, logFatalf]

theorem runNode_ok {σ : Type} (K : Cluster σ) (config : Config) (node : Node)
    (s s1 s2 : σ) (t1 t2 : List Event) (masterPod slavePod : Option Pod)
    (hm : getMasterPod K node config.masterPodSelector s = ⟨.ret (.ok masterPod), s1, t1⟩)
    (hs : getSlavePod K node config.slavePodNamespace config.slavePodSelector
      config.failoverPoolLabel s1 = ⟨.ret (.ok slavePod), s2, t2⟩) :
    runNode K config node s =
      ⟨(reconcileNode K config node masterPod slavePod s2).out,
        (reconcileNode K config node masterPod slavePod s2).store,
        t1 ++ (t2 ++ (reconcileNode K config node masterPod slavePod s2).trace)⟩ := by
  simp [runNode, M.bind, hm, hs]

theorem runNodes_cons {σ : Type} (K : Cluster σ) (config : Config) (node : Node)
    (rest : List Node) (s : σ) :
    runNodes K config (node :: rest) s =
      M.bind (runNode K config node) (fun _ => runNodes K config rest) s := rfl

theorem runNodes_append {σ : Type} (K : Cluster σ) (config : Config)
    (before rest : List Node) (s s1 : σ) (t1 : List Event)
    (h : runNodes K config before s = ⟨.ret (), s1, t1⟩) :
    runNodes K config (before ++ rest) s =
      ⟨(runNodes K config rest s1).out, (runNodes K config rest s1).store,
        t1 ++ (runNodes K config rest s1).trace⟩ := by
  induction before generalizing s t1 with
  | nil =>
    simp only [runNodes, run_pure, Res.mk.injEq] at h
    obtain ⟨-, rfl, rfl⟩ := h
    simp
  | cons node before ih =>
    rw [runNodes_cons] at h
    simp only [List.cons_append, runNodes_cons]
    unfold M.bind at h ⊢
    rcases hr : runNode K config node s with ⟨o, s0, t0⟩
    rw [hr] at h
    cases o with
    | ret a =>
      simp only at h ⊢
      rcases hb : runNodes K config before s0 with ⟨o2, s3, t3⟩
      rw [hb] at h
      simp only [Res.mk.injEq] at h
      obtain ⟨rfl, rfl, rfl⟩ := h
      rw [ih s0 t3 hb]
      simp
    | exit => simp at h
    | panic => simp at h

theorem getNodes_returns {σ : Type} (K : Cluster σ) (selector : String) (s : σ) :
    ∃ r s1 t, getNodes K selector s = ⟨.ret r, s1, t⟩ ∧ mutations t = [] := by
  unfold getNodes
  cases hp : K.parseSelector selector with
  | error err => exact ⟨_, _, _, rfl, rfl⟩
  | ok nodeLabels =>
    cases hl : (K.listNodes nodeLabels s).1 with
    | error err =>
      exact ⟨.error ("Failed to get list of nodes: " ++ err), (K.listNodes nodeLabels s).2,
        [.nodesList nodeLabels], by simp [M.bind, emit, request, hl], rfl⟩
    | ok nodes =>
      exact ⟨.ok nodes, (K.listNodes nodeLabels s).2,
        [.nodesList nodeLabels], by simp [M.bind, emit, request, hl], rfl⟩

theorem Run_nodes_failed {σ : Type} (K : Cluster σ) (config : Config) (s : σ) (err : Err)
    (h : (getNodes K config.nodeSelector s).out = .ret (.error err)) :
    Run K config s =
      ⟨.exit, (getNodes K config.nodeSelector s).store,
        (getNodes K config.nodeSelector s).trace ++ [.logFatalf ("Failed to get nodes: " ++ err)]⟩ := by
  obtain ⟨r, s1, t, he, -⟩ := getNodes_returns K config.nodeSelector s
  rw [he] at h ⊢
  simp only [Outcome.ret.injEq] at h
  subst h
  simp [Run, M.bind, he, logFatalf]

theorem Run_nodes_ok {σ : Type} (K : Cluster σ) (config : Config) (s s1 : σ)
    (t1 : List Event) (node : Node) (rest : List Node)
    (h : getNodes K config.nodeSelector s = ⟨.ret (.ok (node :: rest)), s1, t1⟩) :
    Run K config s =
      ⟨(runNodes K config (node :: rest) s1).out, (runNodes K config (node :: rest) s1).store,
        t1 ++ (runNodes K config (node :: rest) s1).trace⟩ := by
  simp [Run, M.bind, h]

/-- C6 at the failing input: the pooled node `n1` has no master pod, its slave pod belongs to
ReplicaSet `web-5d4f8`, and the deployment `web` exists with a pod template without
annotations (a nil map). The step leaves the pool and submits exactly one deployment update,
but the deployment submitted is the one fetched, unchanged: it carries no
`kubectl.kubernetes.io/restartedAt` annotation. -/
theorem restart_annotation_lost_on_nil_annotations :
    isNodeInPool (pooledNode "n1") demoConfig.failoverPoolLabel = some true ∧
    firstReplicaSetOwner demoSlave = some ⟨"ReplicaSet", "web-5d4f8"⟩ ∧
    calls .removeNodeFromPool (reconcileNode (scripted calmScript) demoConfig (pooledNode "n1")
      none (some demoSlave) ()).trace = 1 ∧
    deploymentUpdates (reconcileNode (scripted calmScript) demoConfig (pooledNode "n1")
      none (some demoSlave) ()).trace = [bareDeployment "web"] ∧
    GoMap.contains (bareDeployment "web").templateAnnotations restartedAtKey = false := by
  decide

/-- What the restart does on every eviction (supports C6). On a snapshot that leaves the pool:
without slave pod, or with a slave pod that has no `ReplicaSet` owner, or when the fetch of
the deployment fails, no deployment update is submitted; when the deployment `d` is fetched,
exactly one update is submitted, carrying `annotateRestart d stamp`. That deployment has the
restart annotation, next to the other annotations unchanged, when the template's map of `d`
is allocated, and it is `d` itself when that map is nil. -/
theorem eviction_restart {σ : Type} (K : Cluster σ) (config : Config) (node : Node)
    (masterPod slavePod : Option Pod) (s : σ) (key : String)
    (hk : labelKey config.failoverPoolLabel = some key)
    (hin : GoMap.contains node.labels key = true)
    (hbad : evictionCond node masterPod true = true) :
    (match slavePod with
      | none => deploymentUpdates (reconcileNode K config node masterPod slavePod s).trace = []
      | some pod =>
        match firstReplicaSetOwner pod with
        | none => deploymentUpdates (reconcileNode K config node masterPod slavePod s).trace = []
        | some o =>
          match (K.getDeployment config.slavePodNamespace (deploymentNameOf pod o)
              (K.updateNode (dropLabel node key) s).2).1 with
          | .error _ =>
            deploymentUpdates (reconcileNode K config node masterPod slavePod s).trace = []
          | .ok d =>
            ∃ stamp, deploymentUpdates (reconcileNode K config node masterPod slavePod s).trace =
              [annotateRestart d stamp]) ∧
    (∀ (d : Deployment) (stamp : String),
      (d.templateAnnotations = none → annotateRestart d stamp = d) ∧
      (d.templateAnnotations ≠ none →
        GoMap.get? (annotateRestart d stamp).templateAnnotations restartedAtKey = some stamp ∧
        ∀ k, k ≠ restartedAtKey →
          GoMap.get? (annotateRestart d stamp).templateAnnotations k =
            GoMap.get? d.templateAnnotations k)) := by
  refine ⟨?_, ?_⟩
  · rw [reconcileNode_leave K config node masterPod slavePod s key hk hin hbad,
      leavePool_eq K config node slavePod s key hk]
    simp only [deploymentUpdates_append, deploymentUpdates_logs, List.append_nil]
    cases slavePod with
    | none => simp [restartSlave_none, deploymentUpdates]
    | some pod =>
      cases ho : firstReplicaSetOwner pod with
      | none =>
        simp only [ho]
        simp [restartSlave_unowned K config pod _ ho, deploymentUpdates]
      | some o =>
        cases hg : (K.getDeployment config.slavePodNamespace (deploymentNameOf pod o)
            (K.updateNode (dropLabel node key) s).2).1 with
        | error err =>
          simp only [ho, hg]
          simp [restartSlave_get_failed K config pod _ o err ho hg, deploymentUpdates]
        | ok d =>
          simp only [ho, hg]
          refine ⟨(K.now (K.getDeployment config.slavePodNamespace (deploymentNameOf pod o)
            (K.updateNode (dropLabel node key) s).2).2).1, ?_⟩
          rw [restartSlave_restart K config pod _ o d ho hg]
          cases (K.updateDeployment config.slavePodNamespace
              (annotateRestart d
                (K.now (K.getDeployment config.slavePodNamespace (deploymentNameOf pod o)
                  (K.updateNode (dropLabel node key) s).2).2).1)
              (K.now (K.getDeployment config.slavePodNamespace (deploymentNameOf pod o)
                (K.updateNode (dropLabel node key) s).2).2).2).1 <;>
            simp [deploymentUpdates]
  · intro d stamp
    refine ⟨annotateRestart_nil d stamp, fun h => ?_⟩
    obtain ⟨l, hl⟩ := Option.ne_none_iff_exists'.mp h
    exact ⟨(annotateRestart_allocated d stamp l hl).1, (annotateRestart_allocated d stamp l hl).2.1⟩

theorem runNodes_continue {σ : Type} (K : Cluster σ) (config : Config) (s s1 s2 s3 : σ)
    (t1 t2 t3 : List Event) (before rest : List Node) (node node' : Node)
    (masterPod slavePod : Option Pod)
    (hb : runNodes K config before s = ⟨.ret (), s1, t1⟩)
    (hm : getMasterPod K node config.masterPodSelector s1 = ⟨.ret (.ok masterPod), s2, t2⟩)
    (hs : getSlavePod K node config.slavePodNamespace config.slavePodSelector
      config.failoverPoolLabel s2 = ⟨.ret (.ok slavePod), s3, t3⟩)
    (hr : (reconcileNode K config node masterPod slavePod s3).out = .ret node') :
    runNodes K config (before ++ node :: rest) s =
      ⟨(runNodes K config rest (reconcileNode K config node masterPod slavePod s3).store).out,
        (runNodes K config rest (reconcileNode K config node masterPod slavePod s3).store).store,
        t1 ++ (t2 ++ (t3 ++ ((reconcileNode K config node masterPod slavePod s3).trace ++
          (runNodes K config rest
            (reconcileNode K config node masterPod slavePod s3).store).trace)))⟩ := by
  rw [runNodes_append K config before (node :: rest) s s1 t1 hb, runNodes_cons]
  unfold M.bind
  rw [runNode_ok K config node s1 s2 s3 t2 t3 masterPod slavePod hm hs]
  rcases hR : reconcileNode K config node masterPod slavePod s3 with ⟨o, s4, t4⟩
  rw [hR] at hr
  simp only at hr
  subst hr
  simp

theorem reconcileNode_leave_trace {σ : Type} (K : Cluster σ) (config : Config) (node : Node)
    (masterPod slavePod : Option Pod) (s : σ) (key : String)
    (hk : labelKey config.failoverPoolLabel = some key)
    (hin : GoMap.contains node.labels key = true)
    (hc : evictionCond node masterPod true = true) :
    (reconcileNode K config node masterPod slavePod s).trace =
      [.enter .removeNodeFromPool, .nodesUpdate (dropLabel node key),
        .logPrintf (match (K.updateNode (dropLabel node key) s).1 with
          | .error err => "Failed to remove node " ++ node.name ++ " from failover pool: "
              ++ ("Error updating node: " ++ err)
          | .ok _ => "Removed node " ++ node.name ++ " from failover pool")]
        ++ (restartSlave K config slavePod (K.updateNode (dropLabel node key) s).2).trace
        ++ (if config.logEveryRun then
            [.logPrintf (logStr (dropLabel node key) masterPod slavePod)] else []) := by
  rw [reconcileNode_leave K config node masterPod slavePod s key hk hin hc,
    leavePool_eq K config node slavePod s key hk]

theorem reconcileNode_panic_only_in_join {σ : Type} (K : Cluster σ) (config : Config)
    (node : Node) (masterPod slavePod : Option Pod) (s : σ) (key : String)
    (hk : labelKey config.failoverPoolLabel = some key)
    (hp : (reconcileNode K config node masterPod slavePod s).out = .panic) :
    GoMap.contains node.labels key = false ∧ admissionCond node masterPod false = true ∧
      (labelVal config.failoverPoolLabel = none ∨ node.labels = none) := by
  cases hb : GoMap.contains node.labels key with
  | true =>
    cases he : evictionCond node masterPod true with
    | true =>
      rw [reconcileNode_leave K config node masterPod slavePod s key hk hb he] at hp
      exact absurd hp (by simp)
    | false =>
      rw [reconcileNode_noop K config node masterPod slavePod s key hk (by rw [hb]; exact he)
        (by rw [hb]; exact admissionCond_true_right _ _)] at hp
      exact absurd hp (by simp)
  | false =>
    cases ha : admissionCond node masterPod false with
    | true =>
      by_cases hq : labelVal config.failoverPoolLabel = none ∨ node.labels = none
      · exact ⟨rfl, rfl, hq⟩
      · obtain ⟨val, hv⟩ := Option.ne_none_iff_exists'.mp (fun e => hq (Or.inl e))
        obtain ⟨node', hn⟩ := setLabel_isSome node key val (fun e => hq (Or.inr e))
        rw [reconcileNode_join K config node node' masterPod slavePod s key val hk hv hn hb ha]
          at hp
        exact absurd hp (by simp)
    | false =>
      rw [reconcileNode_noop K config node masterPod slavePod s key hk
        (by rw [hb]; exact evictionCond_false_right _ _) (by rw [hb]; exact ha)] at hp
      exact absurd hp (by simp)

/-- C7, as the spec states it, fails for the fetch of the owning workload: in a pass over the
pooled nodes `n1` and `n2` where every `Deployments(ns).Get` fails, the failure at `n1` is
logged with `log.Printf`, the pass goes on to `n2`, updates it as well, and returns
normally. -/
theorem deployment_fetch_failure_does_not_abort :
    (getDeploymentByPod (scripted noDeploymentScript) demoSlave "apps" ()).out =
      .ret (.error "Failed to get pod's deployment: deployments.apps not found") ∧
    (Run (scripted noDeploymentScript) demoConfig ()).out = .ret () ∧
    nodeUpdates (Run (scripted noDeploymentScript) demoConfig ()).trace =
      [{ pooledNode "n1" with labels := some [] }, { pooledNode "n2" with labels := some [] }] ∧
    Event.logPrintf ("Failed to get deployment of pod web-5d4f8-x2x: "
        ++ "Failed to get pod's deployment: deployments.apps not found")
      ∈ (Run (scripted noDeploymentScript) demoConfig ()).trace ∧
    Event.logFatalf ("Failed to get deployment of pod web-5d4f8-x2x: "
        ++ "Failed to get pod's deployment: deployments.apps not found")
      ∉ (Run (scripted noDeploymentScript) demoConfig ()).trace :=
  ⟨rfl, by decide, by decide, by decide, by decide⟩

/-- C7, amended. A failure to list the nodes, or to list the master pods or the slave pods of
any node of the pass, ends the pass there through `log.Fatalf`: the trace stops at the fatal
line, the rest of the nodes is not processed, and the failed query itself mutates nothing.
Every other failure is only logged and the pass continues with the next node. For a node at
any position of the pass whose two pod queries are answered: when the node leaves the pool,
the loop body returns whatever the cluster answers to the node update, the deployment fetch
and the deployment update, the pass equals the trace so far followed by the run over the
remaining nodes from the state the body left, a failed node update, a failed fetch (with no
restart and no deployment update) and a failed restart each leave their `log.Printf` line;
the same holds for a failed node update when the node joins the pool. The loop body never
exits, and it panics only in the admission branch, on a nil label map or a label without
value. -/
theorem query_failures_abort_other_failures_continue {σ : Type} (K : Cluster σ)
    (config : Config) :
    (∀ (s : σ) (err : Err), (getNodes K config.nodeSelector s).out = .ret (.error err) →
      (Run K config s).out = .exit ∧
      (Run K config s).trace =
        (getNodes K config.nodeSelector s).trace ++ [.logFatalf ("Failed to get nodes: " ++ err)] ∧
      mutations (getNodes K config.nodeSelector s).trace = []) ∧
    (∀ (s s1 : σ) (t1 : List Event) (before rest : List Node) (node : Node) (err : Err),
      runNodes K config before s = ⟨.ret (), s1, t1⟩ →
      (getMasterPod K node config.masterPodSelector s1).out = .ret (.error err) →
      (runNodes K config (before ++ node :: rest) s).out = .exit ∧
      (runNodes K config (before ++ node :: rest) s).trace =
        t1 ++ ((getMasterPod K node config.masterPodSelector s1).trace ++
          [.logFatalf ("Failed to get master pod: " ++ err)]) ∧
      mutations (getMasterPod K node config.masterPodSelector s1).trace = []) ∧
    (∀ (s s1 s2 : σ) (t1 t2 : List Event) (before rest : List Node) (node : Node)
      (masterPod : Option Pod) (err : Err),
      runNodes K config before s = ⟨.ret (), s1, t1⟩ →
      getMasterPod K node config.masterPodSelector s1 = ⟨.ret (.ok masterPod), s2, t2⟩ →
      (getSlavePod K node config.slavePodNamespace config.slavePodSelector
        config.failoverPoolLabel s2).out = .ret (.error err) →
      (runNodes K config (before ++ node :: rest) s).out = .exit ∧
      (runNodes K config (before ++ node :: rest) s).trace =
        t1 ++ (t2 ++ ((getSlavePod K node config.slavePodNamespace config.slavePodSelector
          config.failoverPoolLabel s2).trace ++
          [.logFatalf ("Failed to get slave pods: " ++ err)])) ∧
      mutations (getSlavePod K node config.slavePodNamespace config.slavePodSelector
        config.failoverPoolLabel s2).trace = []) ∧
    (∀ (s : σ) (node : Node) (masterPod slavePod : Option Pod),
      (reconcileNode K config node masterPod slavePod s).out ≠ .exit) ∧
    (∀ (s s1 : σ) (t1 : List Event) (node node' : Node) (rest : List Node),
      runNode K config node s = ⟨.ret node', s1, t1⟩ →
      runNodes K config (node :: rest) s =
        ⟨(runNodes K config rest s1).out, (runNodes K config rest s1).store,
          t1 ++ (runNodes K config rest s1).trace⟩) ∧
    (∀ (s : σ) (pod : Pod) (o : OwnerRef) (err : Err),
      firstReplicaSetOwner pod = some o →
      (K.getDeployment config.slavePodNamespace (deploymentNameOf pod o) s).1 = .error err →
      restartSlave K config (some pod) s =
        ⟨.ret (), (K.getDeployment config.slavePodNamespace (deploymentNameOf pod o) s).2,
          [.enter .getDeploymentByPod,
           .deploymentsGet config.slavePodNamespace (deploymentNameOf pod o),
           .logPrintf ("Failed to get deployment of pod " ++ pod.name ++ ": "
              ++ ("Failed to get pod's deployment: " ++ err))]⟩) ∧
    (∀ (s : σ) (node : Node) (slavePod : Option Pod) (key : String) (err : Err),
      labelKey config.failoverPoolLabel = some key →
      (K.updateNode (dropLabel node key) s).1 = .error err →
      (leavePool K config node slavePod s).out = .ret (dropLabel node key) ∧
      Event.logPrintf ("Failed to remove node " ++ node.name ++ " from failover pool: "
        ++ ("Error updating node: " ++ err)) ∈ (leavePool K config node slavePod s).trace) ∧
    (∀ (s : σ) (node node' : Node) (key val : String) (err : Err),
      labelKey config.failoverPoolLabel = some key →
      labelVal config.failoverPoolLabel = some val →
      setLabel node key val = some node' →
      (K.updateNode node' s).1 = .error err →
      (joinPool K config node s).out = .ret node' ∧
      Event.logPrintf ("Failed to add node " ++ node.name ++ " to failover pool: "
        ++ ("Error updating node: " ++ err)) ∈ (joinPool K config node s).trace) ∧
    (∀ (s : σ) (pod : Pod) (o : OwnerRef) (d : Deployment) (err : Err),
      firstReplicaSetOwner pod = some o →
      (K.getDeployment config.slavePodNamespace (deploymentNameOf pod o) s).1 = .ok d →
      (K.updateDeployment config.slavePodNamespace
        (annotateRestart d
          (K.now (K.getDeployment config.slavePodNamespace (deploymentNameOf pod o) s).2).1)
        (K.now (K.getDeployment config.slavePodNamespace (deploymentNameOf pod o) s).2).2).1
        = .error err →
      (restartSlave K config (some pod) s).out = .ret () ∧
      Event.logPrintf ("Failed to restart deployment " ++ d.namespace_ ++ "/" ++ d.name
        ++ ": " ++ ("Failed to restart deployment: " ++ err))
        ∈ (restartSlave K config (some pod) s).trace) ∧
    (∀ (s s1 s2 s3 : σ) (t1 t2 t3 : List Event) (before rest : List Node) (node node' : Node)
      (masterPod slavePod : Option Pod),
      runNodes K config before s = ⟨.ret (), s1, t1⟩ →
      getMasterPod K node config.masterPodSelector s1 = ⟨.ret (.ok masterPod), s2, t2⟩ →
      getSlavePod K node config.slavePodNamespace config.slavePodSelector
        config.failoverPoolLabel s2 = ⟨.ret (.ok slavePod), s3, t3⟩ →
      (reconcileNode K config node masterPod slavePod s3).out = .ret node' →
      runNodes K config (before ++ node :: rest) s =
        ⟨(runNodes K config rest (reconcileNode K config node masterPod slavePod s3).store).out,
          (runNodes K config rest (reconcileNode K config node masterPod slavePod s3).store).store,
          t1 ++ (t2 ++ (t3 ++ ((reconcileNode K config node masterPod slavePod s3).trace ++
            (runNodes K config rest
              (reconcileNode K config node masterPod slavePod s3).store).trace)))⟩) ∧
    (∀ (s : σ) (node : Node) (masterPod slavePod : Option Pod) (key : String),
      labelKey config.failoverPoolLabel = some key →
      (reconcileNode K config node masterPod slavePod s).out = .panic →
      GoMap.contains node.labels key = false ∧ admissionCond node masterPod false = true ∧
        (labelVal config.failoverPoolLabel = none ∨ node.labels = none)) ∧
    (∀ (s s1 s2 s3 : σ) (t1 t2 t3 : List Event) (before rest : List Node) (node : Node)
      (masterPod slavePod : Option Pod) (key : String),
      runNodes K config before s = ⟨.ret (), s1, t1⟩ →
      getMasterPod K node config.masterPodSelector s1 = ⟨.ret (.ok masterPod), s2, t2⟩ →
      getSlavePod K node config.slavePodNamespace config.slavePodSelector
        config.failoverPoolLabel s2 = ⟨.ret (.ok slavePod), s3, t3⟩ →
      labelKey config.failoverPoolLabel = some key →
      GoMap.contains node.labels key = true →
      evictionCond node masterPod true = true →
      (reconcileNode K config node masterPod slavePod s3).out = .ret (dropLabel node key) ∧
      runNodes K config (before ++ node :: rest) s =
        ⟨(runNodes K config rest (reconcileNode K config node masterPod slavePod s3).store).out,
          (runNodes K config rest (reconcileNode K config node masterPod slavePod s3).store).store,
          t1 ++ (t2 ++ (t3 ++ ((reconcileNode K config node masterPod slavePod s3).trace ++
            (runNodes K config rest
              (reconcileNode K config node masterPod slavePod s3).store).trace)))⟩ ∧
      (∀ err : Err, (K.updateNode (dropLabel node key) s3).1 = .error err →
        Event.logPrintf ("Failed to remove node " ++ node.name ++ " from failover pool: "
          ++ ("Error updating node: " ++ err))
          ∈ (reconcileNode K config node masterPod slavePod s3).trace) ∧
      (∀ (pod : Pod) (o : OwnerRef) (err : Err), slavePod = some pod →
        firstReplicaSetOwner pod = some o →
        (K.getDeployment config.slavePodNamespace (deploymentNameOf pod o)
          (K.updateNode (dropLabel node key) s3).2).1 = .error err →
        Event.logPrintf ("Failed to get deployment of pod " ++ pod.name ++ ": "
          ++ ("Failed to get pod's deployment: " ++ err))
          ∈ (reconcileNode K config node masterPod slavePod s3).trace ∧
        deploymentUpdates (reconcileNode K config node masterPod slavePod s3).trace = [] ∧
        calls .restartDeployment (reconcileNode K config node masterPod slavePod s3).trace = 0) ∧
      (∀ (pod : Pod) (o : OwnerRef) (d : Deployment) (err : Err), slavePod = some pod →
        firstReplicaSetOwner pod = some o →
        (K.getDeployment config.slavePodNamespace (deploymentNameOf pod o)
          (K.updateNode (dropLabel node key) s3).2).1 = .ok d →
        (K.updateDeployment config.slavePodNamespace
          (annotateRestart d
            (K.now (K.getDeployment config.slavePodNamespace (deploymentNameOf pod o)
              (K.updateNode (dropLabel node key) s3).2).2).1)
          (K.now (K.getDeployment config.slavePodNamespace (deploymentNameOf pod o)
            (K.updateNode (dropLabel node key) s3).2).2).2).1 = .error err →
        Event.logPrintf ("Failed to restart deployment " ++ d.namespace_ ++ "/" ++ d.name
          ++ ": " ++ ("Failed to restart deployment: " ++ err))
          ∈ (reconcileNode K config node masterPod slavePod s3).trace)) ∧
    (∀ (s s1 s2 s3 : σ) (t1 t2 t3 : List Event) (before rest : List Node) (node node' : Node)
      (masterPod slavePod : Option Pod) (key val : String),
      runNodes K config before s = ⟨.ret (), s1, t1⟩ →
      getMasterPod K node config.masterPodSelector s1 = ⟨.ret (.ok masterPod), s2, t2⟩ →
      getSlavePod K node config.slavePodNamespace config.slavePodSelector
        config.failoverPoolLabel s2 = ⟨.ret (.ok slavePod), s3, t3⟩ →
      labelKey config.failoverPoolLabel = some key →
      labelVal config.failoverPoolLabel = some val →
      setLabel node key val = some node' →
      GoMap.contains node.labels key = false →
      admissionCond node masterPod false = true →
      (reconcileNode K config node masterPod slavePod s3).out = .ret node' ∧
      runNodes K config (before ++ node :: rest) s =
        ⟨(runNodes K config rest (reconcileNode K config node masterPod slavePod s3).store).out,
          (runNodes K config rest (reconcileNode K config node masterPod slavePod s3).store).store,
          t1 ++ (t2 ++ (t3 ++ ((reconcileNode K config node masterPod slavePod s3).trace ++
            (runNodes K config rest
              (reconcileNode K config node masterPod slavePod s3).store).trace)))⟩ ∧
      (∀ err : Err, (K.updateNode node' s3).1 = .error err →
        Event.logPrintf ("Failed to add node " ++ node.name ++ " to failover pool: "
          ++ ("Error updating node: " ++ err))
          ∈ (reconcileNode K config node masterPod slavePod s3).trace)) := by
  refine ⟨?_, ?_, ?_, ?_, ?_, ?_, ?_, ?_, ?_, ?_, ?_, ?_, ?_⟩
  · intro s err h
    obtain ⟨r, s1, t, he, hm⟩ := getNodes_returns K config.nodeSelector s
    rw [Run_nodes_failed K config s err h]
    refine ⟨rfl, rfl, ?_⟩
    rw [he]
    exact hm
  · intro s s1 t1 before rest node err hb h
    obtain ⟨r, s2, t, he, hm⟩ := getMasterPod_returns K node config.masterPodSelector s1
    rw [runNodes_append K config before (node :: rest) s s1 t1 hb, runNodes_cons]
    unfold M.bind
    rw [runNode_master_failed K config node s1 err h]
    refine ⟨rfl, rfl, ?_⟩
    rw [he]
    exact hm
  · intro s s1 s2 t1 t2 before rest node masterPod err hb hm h
    obtain ⟨r, s3, t, he, hmu⟩ := getSlavePod_returns K node config.slavePodNamespace
      config.slavePodSelector config.failoverPoolLabel s2
    rw [runNodes_append K config before (node :: rest) s s1 t1 hb, runNodes_cons]
    unfold M.bind
    rw [runNode_slave_failed K config node s1 s2 t2 masterPod err hm h]
    refine ⟨rfl, rfl, ?_⟩
    rw [he]
    exact hmu
  · intro s node masterPod slavePod
    exact reconcileNode_no_exit K config node masterPod slavePod s
  · intro s s1 t1 node node' rest h
    rw [runNodes_cons]
    unfold M.bind
    rw [h]
  · intro s pod o err ho hg
    exact restartSlave_get_failed K config pod s o err ho hg
  · intro s node slavePod key err hk hu
    rw [leavePool_eq K config node slavePod s key hk, hu]
    exact ⟨rfl, by simp⟩
  · intro s node node' key val err hk hv hn hu
    rw [joinPool_eq K config node node' key val s hk hv hn, hu]
    exact ⟨rfl, by simp⟩
  · intro s pod o d err ho hg hu
    rw [restartSlave_restart K config pod s o d ho hg, hu]
    exact ⟨rfl, by simp⟩
  · intro s s1 s2 s3 t1 t2 t3 before rest node node' masterPod slavePod hb hm hs hr
    exact runNodes_continue K config s s1 s2 s3 t1 t2 t3 before rest node node' masterPod
      slavePod hb hm hs hr
  · intro s node masterPod slavePod key hk hp
    exact reconcileNode_panic_only_in_join K config node masterPod slavePod s key hk hp
  · intro s s1 s2 s3 t1 t2 t3 before rest node masterPod slavePod key hb hm hs hk hin hc
    have hout : (reconcileNode K config node masterPod slavePod s3).out =
        .ret (dropLabel node key) := by
      rw [reconcileNode_leave K config node masterPod slavePod s3 key hk hin hc]
    have htr := reconcileNode_leave_trace K config node masterPod slavePod s3 key hk hin hc
    refine ⟨hout, runNodes_continue K config s s1 s2 s3 t1 t2 t3 before rest node _ masterPod
      slavePod hb hm hs hout, ?_, ?_, ?_⟩
    · intro err hu
      rw [htr, hu]
      simp
    · intro pod o err hsp ho hg
      subst hsp
      rw [htr, restartSlave_get_failed K config pod _ o err ho hg]
      refine ⟨by simp, ?_, ?_⟩
      · simp only [deploymentUpdates_append, deploymentUpdates_logs]
        simp [deploymentUpdates]
      · simp only [calls_append, calls_logs]
        simp [calls]
    · intro pod o d err hsp ho hg hu
      subst hsp
      rw [htr, restartSlave_restart K config pod _ o d ho hg, hu]
      simp
  · intro s s1 s2 s3 t1 t2 t3 before rest node node' masterPod slavePod key val hb hm hs hk hv
      hn hin hc
    have hR := reconcileNode_join K config node node' masterPod slavePod s3 key val hk hv hn
      hin hc
    have hout : (reconcileNode K config node masterPod slavePod s3).out = .ret node' := by
      rw [hR]
    refine ⟨hout, runNodes_continue K config s s1 s2 s3 t1 t2 t3 before rest node node'
      masterPod slavePod hb hm hs hout, ?_⟩
    intro err hu
    rw [hR, joinPool_eq K config node node' key val s3 hk hv hn, hu]
    simp

/-- Witness for C7: on the cluster whose master-pod listing fails the pass over `n1` and `n2`
exits at `n1`; on the cluster whose deployment fetch fails the pass over `n1` and `n2` logs
the failure at `n1` and is continued by the run over `n2`. -/
theorem query_failures_abort_other_failures_continue_witness :
    ((runNodes (scripted noMasterListScript) demoConfig ([] ++ pooledNode "n1" :: [pooledNode "n2"])
      ()).out = .exit ∧
    (runNodes (scripted noMasterListScript) demoConfig ([] ++ pooledNode "n1" :: [pooledNode "n2"])
      ()).trace =
      [] ++ ((getMasterPod (scripted noMasterListScript) (pooledNode "n1")
          demoConfig.masterPodSelector ()).trace ++
        [.logFatalf ("Failed to get master pod: " ++ ("Failed to filter master pods: "
          ++ "the server is currently unable to handle the request"))])) ∧
    (runNodes (scripted noDeploymentScript) demoConfig
        ([] ++ pooledNode "n1" :: [pooledNode "n2"]) () =
      ⟨(runNodes (scripted noDeploymentScript) demoConfig [pooledNode "n2"]
          (reconcileNode (scripted noDeploymentScript) demoConfig (pooledNode "n1") none
            (some demoSlave) ()).store).out,
        (runNodes (scripted noDeploymentScript) demoConfig [pooledNode "n2"]
          (reconcileNode (scripted noDeploymentScript) demoConfig (pooledNode "n1") none
            (some demoSlave) ()).store).store,
        [] ++ ([.podsList "default" "spec.nodeName=n1" "role=master"] ++
          ([.podsList "apps" "spec.nodeName=n1" "role=slave"] ++
            ((reconcileNode (scripted noDeploymentScript) demoConfig (pooledNode "n1") none
              (some demoSlave) ()).trace ++
            (runNodes (scripted noDeploymentScript) demoConfig [pooledNode "n2"]
              (reconcileNode (scripted noDeploymentScript) demoConfig (pooledNode "n1") none
                (some demoSlave) ()).store).trace)))⟩ ∧
      Event.logPrintf ("Failed to get deployment of pod " ++ demoSlave.name ++ ": "
          ++ ("Failed to get pod's deployment: " ++ "deployments.apps not found"))
        ∈ (reconcileNode (scripted noDeploymentScript) demoConfig (pooledNode "n1") none
            (some demoSlave) ()).trace) := by
  have h := (query_failures_abort_other_failures_continue (scripted noMasterListScript)
    demoConfig).2.1 () () [] [] [pooledNode "n2"] (pooledNode "n1")
    ("Failed to filter master pods: " ++ "the server is currently unable to handle the request")
    rfl rfl
  have h2 := (query_failures_abort_other_failures_continue (scripted noDeploymentScript)
    demoConfig).2.2.2.2.2.2.2.2.2.2.2.1 () () () ()
    [] [.podsList "default" "spec.nodeName=n1" "role=master"]
    [.podsList "apps" "spec.nodeName=n1" "role=slave"] [] [pooledNode "n2"] (pooledNode "n1")
    none (some demoSlave) "pool" rfl rfl rfl (by decide) (by decide) (by decide)
  exact ⟨⟨h.1, h.2.1⟩, h2.2.1,
    (h2.2.2.2.1 demoSlave ⟨"ReplicaSet", "web-5d4f8"⟩ "deployments.apps not found" rfl
      (by decide) rfl).1⟩

end Failover
